import Mathlib

set_option maxRecDepth 4096

/-!
Verification of the node server of the GCE persistent-disk CSI driver
(pkg/gce-pd-csi-driver/node.go) against its natural-language specification.

The Go code is shallowly embedded: every collaborator call (device-path resolution,
mount primitives, cloud metadata, ...) is an input supplied by an environment
record, machine integers are modelled as Int with the int64 range checked where
the Go code can overflow, and fallible steps return Except / Option.  Helpers of
this repository that are outside pkg/gce-pd-csi-driver/node.go (the volume-lock
registry, the device-error map, collectMountOptions, validateVolumeCapability,
the hyperdisk attach-limit table) are modelled from the specification and marked
as such in their doc comments.
-/

/-- The gRPC status codes used by the node server. -/
inductive ErrCode
  | invalidArgument
  | aborted
  | internal
  | dataLoss
  | notFound
deriving DecidableEq, Repr

/-- Observable side effects of a lifecycle call on the device, the filesystem
and the cache layer (the collaborator calls that mutate state). -/
inductive Effect
  | setupCachingE
  | prepareStagePathE (path : String)
  | formatAndMountE (devicePath stagingPath fstype : String) (options : List String)
  | resizeE (devicePath path : String)
  | readAheadE (devicePath : String) (readAheadKB : Int)
  | sysfsWriteE (key value : String)
  | preparePublishPathE (path : String)
  | makeFileE (path : String)
  | removeFileE (path : String)
  | mountE (source target fstype : String) (options : List String)
  | unmountE (path : String)
  | cleanupCacheE
deriving DecidableEq, Repr

/-- Access type of a CSI volume capability: a mount volume (with fsType and
mount flags) or a raw block volume. -/
inductive AccessType
  | mount (fsType : String) (mountFlags : List String)
  | block
deriving DecidableEq, Repr

/-- Modelled from the spec: the shape of a CSI VolumeCapability as the node
server consumes it.  accessType is the oneof mount/block field (none when the
caller set neither); hasAccessMode records whether an access mode was supplied;
readOnly is the summary of getReadOnlyFromCapability (pkg/gce-pd-csi-driver,
not under src/), which reports whether the access mode is a reader-only mode. -/
structure VolumeCapability where
  accessType : Option AccessType
  hasAccessMode : Bool
  readOnly : Bool
deriving DecidableEq, Repr

/-- Modelled from the spec: validateVolumeCapability
(pkg/gce-pd-csi-driver/utils.go, not under src/) validates the capability
shape: an access mode must be present and the access type must be mount or
block. -/
def validateVolumeCapability (cap : VolumeCapability) : Bool :=
  cap.hasAccessMode && cap.accessType.isSome

/-- Configuration of the node server (GCENodeServer fields set at startup). -/
structure NodeCfg where
  enableDataCache : Bool
  dataCacheEnabledNodePool : Bool
  enableDeviceInUseCheck : Bool
  deviceInUseTimeout : Nat
deriving DecidableEq, Repr

/-- The cross-call shared state of the node server: the set of currently held
volume locks and the device-in-use error records (key with the timestamp of
the first in-use observation). -/
structure NodeState where
  locks : List String
  deviceInUseErrors : List (String × Nat)
deriving DecidableEq, Repr

/-- Modelled from the spec: lookup in the device-in-use tracker
(pkg/gce-pd-csi-driver/device_error_map.go, not under src/). -/
def deviceErrLookup (m : List (String × Nat)) (key : String) : Option Nat :=
  match m.find? (fun e => e.1 = key) with
  | some e => some e.2
  | none => none

/-- Modelled from the spec: markDeviceError records the current time for a key
on its first in-use observation; a record that already exists is retained
unchanged. -/
def markDeviceError (m : List (String × Nat)) (key : String) (now : Nat) :
    List (String × Nat) :=
  match deviceErrLookup m key with
  | some _ => m
  | none => (key, now) :: m

/-- Modelled from the spec: deviceErrorExpired reports whether a record exists
for the key and its elapsed age has reached the configured timeout. -/
def deviceErrorExpired (m : List (String × Nat)) (key : String) (now timeout : Nat) :
    Bool :=
  match deviceErrLookup m key with
  | some t => timeout ≤ now - t
  | none => false

/-- Modelled from the spec: deleteDevice clears any record for the key. -/
def deleteDevice (m : List (String × Nat)) (key : String) : List (String × Nat) :=
  m.filter (fun e => e.1 ≠ key)

/-! String helpers mirroring the Go standard library calls used by node.go. -/

/-- Model of strings.HasPrefix. -/
def goHasPrefix (s pre : String) : Bool :=
  pre.data.isPrefixOf s.data

/-- Model of strings.TrimSuffix with suffix "-" (the only use in node.go). -/
def goTrimSuffixDash (s : String) : String :=
  if s.data.getLast? = some '-' then String.mk s.data.dropLast else s

/-- Helper of goSplitDash: split a character list at each dash. -/
def splitDashAux : List Char → List Char → List String
  | [], acc => [String.mk acc.reverse]
  | '-' :: rest, acc => String.mk acc.reverse :: splitDashAux rest []
  | c :: rest, acc => splitDashAux rest (c :: acc)

/-- Model of strings.Split with separator "-" (the only use in node.go). -/
def goSplitDash (s : String) : List String :=
  splitDashAux s.data []

/-- Decimal digit test for the Go regex class d and for strconv.ParseInt. -/
def isDigitChar (c : Char) : Bool :=
  decide ('0' ≤ c) && decide (c ≤ '9')

/-- Decimal value of a digit character. -/
def digitVal (c : Char) : Nat :=
  c.toNat - '0'.toNat

/-- Accumulate a decimal digit string into a Nat; none on a non-digit. -/
def digitsToNatAux : Nat → List Char → Option Nat
  | acc, [] => some acc
  | acc, c :: cs =>
    if isDigitChar c then digitsToNatAux (10 * acc + digitVal c) cs else none

/-- Parse a nonempty all-digit character list as a Nat. -/
def digitsToNat : List Char → Option Nat
  | [] => none
  | l => digitsToNatAux 0 l

/-- Model of strconv.ParseInt(s, 10, 64) (and of bitSize 0 on a 64-bit
platform): an optional sign followed by at least one digit, with the value
required to fit in int64; none models a non-nil error (including ErrRange,
which every caller in node.go treats as a failure). -/
def goParseInt64 (s : String) : Option Int :=
  match s.data with
  | '+' :: rest =>
    (digitsToNat rest).bind fun n =>
      if n ≤ 2 ^ 63 - 1 then some (Int.ofNat n) else none
  | '-' :: rest =>
    (digitsToNat rest).bind fun n =>
      if n ≤ 2 ^ 63 then some (-(Int.ofNat n)) else none
  | l =>
    (digitsToNat l).bind fun n =>
      if n ≤ 2 ^ 63 - 1 then some (Int.ofNat n) else none

/-! Models of the three anchored regexes of node.go.  A token matches
read_ahead_kb=(.+) iff it is that literal followed by at least one character
and contains no newline (RE2 dot excludes newline and the pattern is anchored
at both ends); the btrfs patterns require exactly one or two digits. -/

/-- Characters of the read-ahead flag literal. -/
def readAheadPat : List Char := "read_ahead_kb=".data

/-- Captured group of readAheadKBMountFlagRegex, when the token matches. -/
def readAheadValue? (flag : String) : Option String :=
  let d := flag.data
  if readAheadPat.isPrefixOf d then
    let v := d.drop readAheadPat.length
    if v ≠ [] ∧ v.all (fun c => c != '\n') = true then some (String.mk v) else none
  else none

/-- Characters of the btrfs data reclaim flag literal. -/
def btrfsDataPat : List Char := "btrfs-allocation-data-bg_reclaim_threshold=".data

/-- Characters of the btrfs metadata reclaim flag literal. -/
def btrfsMetaPat : List Char := "btrfs-allocation-metadata-bg_reclaim_threshold=".data

/-- Captured group of btrfsReclaimDataRegex, when the token matches. -/
def btrfsDataValue? (flag : String) : Option String :=
  let d := flag.data
  if btrfsDataPat.isPrefixOf d then
    let v := d.drop btrfsDataPat.length
    if (v.length = 1 ∨ v.length = 2) ∧ v.all isDigitChar = true then
      some (String.mk v)
    else none
  else none

/-- Captured group of btrfsReclaimMetadataRegex, when the token matches. -/
def btrfsMetaValue? (flag : String) : Option String :=
  let d := flag.data
  if btrfsMetaPat.isPrefixOf d then
    let v := d.drop btrfsMetaPat.length
    if (v.length = 1 ∨ v.length = 2) ∧ v.all isDigitChar = true then
      some (String.mk v)
    else none
  else none

/-! Constants of node.go (lines 110-125). -/

/-- Attach limit for the shared-core machine types. -/
def volumeLimitSmall : Int := 15

/-- Default attach limit. -/
def volumeLimitBig : Int := 127

/-- Attach limit for x4 machine types. -/
def x4HyperdiskLimit : Int := 39

/-- Attach limit for a4 machine types. -/
def a4HyperdiskLimit : Int := 127

/-- Default filesystem type on linux. -/
def defaultLinuxFsType : String := "ext4"

/-- The ext3 filesystem type constant. -/
def fsTypeExt3 : String := "ext3"

/-- The btrfs filesystem type constant. -/
def fsTypeBtrfs : String := "btrfs"

/-- Model of getDefaultFsType for linux builds (runtime.GOOS is linux for this
driver; the windows branch returning ntfs is not modelled). -/
def getDefaultFsType : String := defaultLinuxFsType

/-- Modelled from the spec: collectMountOptions (pkg/gce-pd-csi-driver/utils.go,
not under src/).  The Mount-Option Pipeline filters the embedded pseudo-flags
out of the raw flag list: the clean option list handed to the mount primitive
never contains a token matching the read-ahead or btrfs-reclaim tunable
patterns. -/
def collectMountOptions (_fsType : String) (mountFlags : List String) : List String :=
  mountFlags.filter fun f =>
    (readAheadValue? f).isNone && (btrfsDataValue? f).isNone && (btrfsMetaValue? f).isNone

/-- Model of extractBtrfsReclaimFlags (node.go lines 547-557): scan the mount
flags, remembering the captured group of the last flag matching the data
pattern and of the last flag matching the metadata pattern; empty string when
no flag matched. -/
def extractBtrfsReclaimFlags (mountFlags : List String) : String × String :=
  mountFlags.foldl
    (fun acc flag =>
      match btrfsDataValue? flag with
      | some v => (v, acc.2)
      | none =>
        match btrfsMetaValue? flag with
        | some v => (acc.1, v)
        | none => acc)
    ("", "")

/-- Model of extractReadAheadKBMountFlag (node.go lines 559-577): the first
flag matching the read-ahead pattern decides the outcome; a value that fails
to parse as an integer or is negative is an error; with no matching flag the
result is (-1, false) and no error. -/
def extractReadAheadKBMountFlag : List String → Except String (Int × Bool)
  | [] => .ok (-1, false)
  | flag :: rest =>
    match readAheadValue? flag with
    | some v =>
      match goParseInt64 v with
      | none => .error "invalid read_ahead_kb mount flag"
      | some n =>
        if n < 0 then .error "invalid negative value for read_ahead_kb mount flag"
        else .ok (n, true)
    | none => extractReadAheadKBMountFlag rest

/-! NodeStageVolume (node.go lines 320-512). -/

/-- The NodeStageVolumeRequest fields the node server reads.  The publish
context lookups return the empty string when the key is absent, as a Go map
read does. -/
structure StageReq where
  volumeID : String
  stagingTargetPath : String
  volumeCapability : Option VolumeCapability
  dataCacheMode : String
  dataCacheSize : String
deriving DecidableEq, Repr

/-- Outcomes of the collaborator calls NodeStageVolume makes, one field per
call site; Except/Option model the Go error results. -/
structure StageEnv where
  nodeId : String
  volumeIDToKey : Except String String
  getDevicePath : Except String String
  evalSymlinks : Except String String
  validateDataCacheConfig : Option String
  setupCaching : Except ErrCode String
  isVolumePathMounted : Bool
  prepareStagePath : Option String
  formatAndMount1 : Option String
  formatAndMount2 : Option String
  resize : Option String
  isBlockDevice : Except String Bool
  setReadAheadKB : Option String
  blkid : Except String String
  writeSysfsData : Option String
  writeSysfsMeta : Option String
deriving Repr

/-- Model of the data-cache block of NodeStageVolume (node.go lines 365-388):
run only when the global cache flag is set and the request carries a cache
size or mode; an empty node ID is a bad request; an EvalSymlinks failure is
only logged; an invalid cache configuration is DataLoss on a cache-enabled
node pool and InvalidArgument otherwise; a setupCaching failure keeps an
InvalidArgument code and escalates anything else to DataLoss. -/
def stageCacheStep (cfg : NodeCfg) (req : StageReq) (env : StageEnv)
    (devicePath : String) : Except ErrCode String :=
  if cfg.enableDataCache ∧ (req.dataCacheSize ≠ "" ∨ req.dataCacheMode ≠ "") then
    if env.nodeId.length = 0 then .error .invalidArgument
    else
      let _devFsPath := match env.evalSymlinks with
        | .ok p => p
        | .error _ => ""
      match env.validateDataCacheConfig with
      | some _ =>
        if cfg.dataCacheEnabledNodePool then .error .dataLoss
        else .error .invalidArgument
      | none =>
        match env.setupCaching with
        | .error c =>
          if c = .invalidArgument then .error .invalidArgument
          else .error .dataLoss
        | .ok newPath => .ok newPath
  else .ok devicePath

/-- Model of part 4 of NodeStageVolume (node.go lines 456-464): resize the
filesystem when the capability is not read-only; a resize failure is an
internal error; some of a result short-circuits the remaining parts. -/
def stageResizeStep (req : StageReq) (env : StageEnv) (devicePath : String)
    (readonly : Bool) (tr : List Effect) :
    Option (Except ErrCode Unit) × List Effect :=
  if !readonly then
    match env.resize with
    | some _ => (some (Except.error ErrCode.internal),
        tr ++ [.resizeE devicePath req.stagingTargetPath])
    | none => (none, tr ++ [.resizeE devicePath req.stagingTargetPath])
  else (none, tr)

/-- Model of part 5 of NodeStageVolume (node.go lines 466-471 and
updateReadAhead, lines 531-545): when a read-ahead value was requested, probe
whether the device is a block device (failure is an internal error), silently
skip a non-block device, otherwise apply the value (failure is an internal
error). -/
def stageReadAheadStep (env : StageEnv) (devicePath : String)
    (readAheadKB : Int) (shouldUpdateRA : Bool) (tr : List Effect) :
    Option (Except ErrCode Unit) × List Effect :=
  if shouldUpdateRA then
    match env.isBlockDevice with
    | .error _ => (some (Except.error ErrCode.internal), tr)
    | .ok false => (none, tr)
    | .ok true =>
      match env.setReadAheadKB with
      | some _ => (some (Except.error ErrCode.internal), tr)
      | none => (none, tr ++ [.readAheadE devicePath readAheadKB])
  else (none, tr)

/-- Metadata half of part 6 of NodeStageVolume: write the metadata reclaim
threshold when one was requested; a write failure is an internal error. -/
def stageSysfsMeta (env : StageEnv) (btrfsMeta : String) (tr : List Effect) :
    (Except ErrCode Unit) × List Effect :=
  if btrfsMeta ≠ "" then
    match env.writeSysfsMeta with
    | some _ => (.error .internal,
        tr ++ [.sysfsWriteE "allocation/metadata/bg_reclaim_threshold" btrfsMeta])
    | none => (.ok (),
        tr ++ [.sysfsWriteE "allocation/metadata/bg_reclaim_threshold" btrfsMeta])
  else (.ok (), tr)

/-- Model of part 6 of NodeStageVolume (node.go lines 473-508): when not
read-only and a btrfs reclaim tunable was requested, probe the filesystem UUID
via blkid (failure is an internal error) and write each requested tunable,
any single write failure aborting with an internal error.  Go iterates the
sysfs map in unspecified order; the model fixes the order to the data key
before the metadata key, which no verified property depends on. -/
def stageSysfsStep (env : StageEnv) (readonly : Bool)
    (btrfsData btrfsMeta : String) (tr : List Effect) :
    (Except ErrCode Unit) × List Effect :=
  if !readonly ∧ (btrfsData ≠ "" ∨ btrfsMeta ≠ "") then
    match env.blkid with
    | .error _ => (.error .internal, tr)
    | .ok _uuid =>
      if btrfsData ≠ "" then
        match env.writeSysfsData with
        | some _ => (.error .internal,
            tr ++ [.sysfsWriteE "allocation/data/bg_reclaim_threshold" btrfsData])
        | none => stageSysfsMeta env btrfsMeta
            (tr ++ [.sysfsWriteE "allocation/data/bg_reclaim_threshold" btrfsData])
      else stageSysfsMeta env btrfsMeta tr
  else (.ok (), tr)

/-- Model of parts 4-6 of NodeStageVolume (node.go lines 456-511), chaining
the resize, read-ahead and sysfs steps with early return on failure. -/
def stagePost (req : StageReq) (env : StageEnv) (devicePath : String)
    (readonly : Bool) (readAheadKB : Int) (shouldUpdateRA : Bool)
    (btrfsData btrfsMeta : String) (tr : List Effect) :
    (Except ErrCode Unit) × List Effect :=
  match stageResizeStep req env devicePath readonly tr with
  | (some e, tr) => (e, tr)
  | (none, tr) =>
    match stageReadAheadStep env devicePath readAheadKB shouldUpdateRA tr with
    | (some e, tr) => (e, tr)
    | (none, tr) => stageSysfsStep env readonly btrfsData btrfsMeta tr

/-- Model of the formatAndMount call and its retry (node.go lines 433-454),
taking the final option list: try formatAndMount once, and on failure retry
exactly once with noload appended when the capability is read-only and the
fstype is ext4 or ext3 (a successful retry returns immediately, skipping
parts 4-6); any other failure is an internal error. -/
def stageMountAttempt (req : StageReq) (env : StageEnv) (devicePath : String)
    (readonly : Bool) (fstype : String) (options : List String)
    (readAheadKB : Int) (shouldUpdateRA : Bool) (btrfsData btrfsMeta : String)
    (tr : List Effect) : (Except ErrCode Unit) × List Effect :=
  match env.formatAndMount1 with
  | some _ =>
    if readonly ∧ (fstype = defaultLinuxFsType ∨ fstype = fsTypeExt3) then
      let options2 := options ++ ["noload"]
      let tr := tr ++ [.formatAndMountE devicePath req.stagingTargetPath fstype options,
        .formatAndMountE devicePath req.stagingTargetPath fstype options2]
      match env.formatAndMount2 with
      | none => (.ok (), tr)
      | some _ => (.error .internal, tr)
    else
      (.error .internal,
        tr ++ [.formatAndMountE devicePath req.stagingTargetPath fstype options])
  | none =>
    stagePost req env devicePath readonly readAheadKB shouldUpdateRA
      btrfsData btrfsMeta
      (tr ++ [.formatAndMountE devicePath req.stagingTargetPath fstype options])

/-- Model of part 3 of NodeStageVolume from the ro option on (node.go lines
428-454): append ro for a read-only capability, then attempt the format and
mount. -/
def stageMountAndFinish (req : StageReq) (env : StageEnv) (devicePath : String)
    (readonly : Bool) (fstype : String) (options : List String)
    (readAheadKB : Int) (shouldUpdateRA : Bool) (btrfsData btrfsMeta : String)
    (tr : List Effect) : (Except ErrCode Unit) × List Effect :=
  stageMountAttempt req env devicePath readonly fstype
    (if readonly then options ++ ["ro"] else options)
    readAheadKB shouldUpdateRA btrfsData btrfsMeta tr

/-- Model of the body of NodeStageVolume executed under the volume lock
(node.go lines 341-511): capability validation, volume-key decoding,
device-path resolution, the data-cache step, the already-mounted fast path,
staging-directory creation, and the mount/block branch (a block capability is
a no-op; a mount capability resolves the fstype, filters the options and
extracts the tunables before mounting).  When the capability carries neither
mount nor block — impossible after validation — Go falls through to
formatAndMount with the defaults, and so does the model. -/
def nodeStageLocked (cfg : NodeCfg) (req : StageReq) (cap : VolumeCapability)
    (env : StageEnv) : (Except ErrCode Unit) × List Effect :=
  if validateVolumeCapability cap = false then (.error .invalidArgument, [])
  else match env.volumeIDToKey with
  | .error _ => (.error .invalidArgument, [])
  | .ok _volumeKey =>
  match env.getDevicePath with
  | .error _ => (.error .internal, [])
  | .ok devicePath0 =>
  match stageCacheStep cfg req env devicePath0 with
  | .error c => (.error c, [])
  | .ok devicePath =>
  if env.isVolumePathMounted then (.ok (), [])
  else match env.prepareStagePath with
  | some _ => (.error .internal, [])
  | none =>
  let tr : List Effect := [.prepareStagePathE req.stagingTargetPath]
  match cap.accessType with
  | some .block => (.ok (), tr)
  | some (.mount fsTypeReq mountFlags) =>
    let fstype := if fsTypeReq ≠ "" then fsTypeReq else getDefaultFsType
    let options := collectMountOptions fstype mountFlags
    match extractReadAheadKBMountFlag mountFlags with
    | .error _ => (.error .invalidArgument, tr)
    | .ok (readAheadKB, shouldUpdateRA) =>
      let bdm := if fsTypeReq = fsTypeBtrfs then extractBtrfsReclaimFlags mountFlags
        else ("", "")
      stageMountAndFinish req env devicePath cap.readOnly fstype options
        readAheadKB shouldUpdateRA bdm.1 bdm.2 tr
  | none =>
    stageMountAndFinish req env devicePath cap.readOnly getDefaultFsType []
      (-1) false "" "" tr

/-- Model of NodeStageVolume (node.go lines 320-512): argument validation,
try-acquire of the per-volume lock (Aborted when already held), the locked
body, and the deferred release of the lock on every exit path.  The lock
registry (common.VolumeLocks, not under src/) is modelled from the spec as a
set of held keys with atomic try-acquire and release. -/
def nodeStageVolume (cfg : NodeCfg) (st : NodeState) (req : StageReq)
    (env : StageEnv) : (Except ErrCode Unit) × NodeState × List Effect :=
  if req.volumeID.length = 0 then (.error .invalidArgument, st, [])
  else if req.stagingTargetPath.length = 0 then (.error .invalidArgument, st, [])
  else match req.volumeCapability with
  | none => (.error .invalidArgument, st, [])
  | some cap =>
    if st.locks.contains req.volumeID then (.error .aborted, st, [])
    else
      let stHeld : NodeState := { st with locks := req.volumeID :: st.locks }
      let (r, tr) := nodeStageLocked cfg req cap env
      (r, { stHeld with locks := stHeld.locks.erase req.volumeID }, tr)

/-! NodePublishVolume (node.go lines 164-283). -/

/-- The NodePublishVolumeRequest fields the node server reads. -/
structure PublishReq where
  volumeID : String
  stagingTargetPath : String
  targetPath : String
  readOnly : Bool
  volumeCapability : Option VolumeCapability
deriving DecidableEq, Repr

/-- Outcomes of the collaborator calls NodePublishVolume makes. -/
structure PublishEnv where
  isVolumePathMounted : Bool
  preparePublishPath : Option String
  getDevicePath : Except String String
  makeFile : Option String
  removeFile : Option String
  mount : Option String
  isLikelyNotMountPoint1 : Except String Bool
  unmount : Option String
  isLikelyNotMountPoint2 : Except String Bool
deriving Repr

/-- Model of the mount-failure recovery of NodePublishVolume (node.go lines
249-279): probe whether the target is a mount point anyway; when it is,
unmount once and re-probe; a still-mounted target or any probe or unmount
failure is an internal error; a confirmed-unmounted target is cleaned up
best-effort (the Remove failure is only logged) and the mount failure is
surfaced as an internal error. -/
def publishMountFailure (req : PublishReq) (env : PublishEnv) (tr : List Effect) :
    (Except ErrCode Unit) × List Effect :=
  match env.isLikelyNotMountPoint1 with
  | .error _ => (.error .internal, tr)
  | .ok notMnt =>
    if !notMnt then
      match env.unmount with
      | some _ => (.error .internal, tr ++ [.unmountE req.targetPath])
      | none =>
        let tr := tr ++ [.unmountE req.targetPath]
        match env.isLikelyNotMountPoint2 with
        | .error _ => (.error .internal, tr)
        | .ok notMnt2 =>
          if !notMnt2 then (.error .internal, tr)
          else (.error .internal, tr ++ [.removeFileE req.targetPath])
    else (.error .internal, tr ++ [.removeFileE req.targetPath])

/-- Model of the body of NodePublishVolume executed under the volume lock
(node.go lines 189-282): capability validation, the already-mounted fast
path, then the bind-mount preparation — mount mode collects the bind options
and ensures the target directory, block mode resolves the device and creates
the target file (removing it best-effort when creation fails) — and finally
the bind mount with its failure recovery. -/
def nodePublishLocked (req : PublishReq) (cap : VolumeCapability)
    (env : PublishEnv) : (Except ErrCode Unit) × List Effect :=
  if validateVolumeCapability cap = false then (.error .invalidArgument, [])
  else if env.isVolumePathMounted then (.ok (), [])
  else
    let options0 := if req.readOnly then ["bind", "ro"] else ["bind"]
    match cap.accessType with
    | some (.mount fsTypeReq mountFlags) =>
      let fstype := if fsTypeReq ≠ "" then fsTypeReq else "ext4"
      let options := options0 ++ collectMountOptions fstype mountFlags
      match env.preparePublishPath with
      | some _ => (.error .internal, [])
      | none =>
        let tr := [.preparePublishPathE req.targetPath]
        match env.mount with
        | some _ =>
          publishMountFailure req env
            (tr ++ [.mountE req.stagingTargetPath req.targetPath fstype options])
        | none =>
          (.ok (), tr ++ [.mountE req.stagingTargetPath req.targetPath fstype options])
    | some .block =>
      match env.getDevicePath with
      | .error _ => (.error .internal, [])
      | .ok sourcePath =>
        match env.makeFile with
        | some _ =>
          match env.removeFile with
          | some _ => (.error .internal, [.makeFileE req.targetPath])
          | none => (.error .internal,
              [.makeFileE req.targetPath, .removeFileE req.targetPath])
        | none =>
          let tr := [.makeFileE req.targetPath]
          match env.mount with
          | some _ =>
            publishMountFailure req env
              (tr ++ [.mountE sourcePath req.targetPath "" options0])
          | none => (.ok (), tr ++ [.mountE sourcePath req.targetPath "" options0])
    | none => (.error .invalidArgument, [])

/-- Model of NodePublishVolume (node.go lines 164-283): argument validation,
try-acquire of the per-volume lock (Aborted when already held), the locked
body, and the deferred release on every exit path. -/
def nodePublishVolume (st : NodeState) (req : PublishReq) (env : PublishEnv) :
    (Except ErrCode Unit) × NodeState × List Effect :=
  if req.volumeID.length = 0 then (.error .invalidArgument, st, [])
  else if req.stagingTargetPath.length = 0 then (.error .invalidArgument, st, [])
  else if req.targetPath.length = 0 then (.error .invalidArgument, st, [])
  else match req.volumeCapability with
  | none => (.error .invalidArgument, st, [])
  | some cap =>
    if st.locks.contains req.volumeID then (.error .aborted, st, [])
    else
      let stHeld : NodeState := { st with locks := req.volumeID :: st.locks }
      let (r, tr) := nodePublishLocked req cap env
      (r, { stHeld with locks := stHeld.locks.erase req.volumeID }, tr)

/-! NodeUnpublishVolume (node.go lines 297-318). -/

/-- The NodeUnpublishVolumeRequest fields the node server reads. -/
structure UnpublishReq where
  volumeID : String
  targetPath : String
deriving DecidableEq, Repr

/-- Model of NodeUnpublishVolume (node.go lines 297-318): argument validation,
try-acquire of the per-volume lock, unmount of the target path via
cleanupPublishPath (outcome supplied by the environment; an already-unmounted
target is a success of that collaborator), and the deferred release. -/
def nodeUnpublishVolume (st : NodeState) (req : UnpublishReq)
    (cleanupPublishPath : Option String) :
    (Except ErrCode Unit) × NodeState × List Effect :=
  if req.volumeID.length = 0 then (.error .invalidArgument, st, [])
  else if req.targetPath.length = 0 then (.error .invalidArgument, st, [])
  else if st.locks.contains req.volumeID then (.error .aborted, st, [])
  else
    let stHeld : NodeState := { st with locks := req.volumeID :: st.locks }
    let r : Except ErrCode Unit :=
      match cleanupPublishPath with
      | some _ => .error .internal
      | none => .ok ()
    (r, { stHeld with locks := stHeld.locks.erase req.volumeID },
      [.unmountE req.targetPath])

/-! NodeUnstageVolume (node.go lines 579-648). -/

/-- Outcomes of the collaborator calls confirmDeviceUnused makes. -/
structure ConfirmEnv where
  getDevicePath : Except String String
  evalSymlinks : Except String String
  isDeviceFilesystemInUse : Except String Bool
deriving Repr

/-- Result classes of confirmDeviceUnused: no error, an ignorableError (the
in-use state could not be determined), or a hard in-use error. -/
inductive ConfirmResult
  | unused
  | ignorable
  | inUse
deriving DecidableEq, Repr

/-- Model of confirmDeviceUnused (node.go lines 630-648): a failure of
device-path resolution, of EvalSymlinks or of the in-use query is wrapped as
an ignorableError; a device reported in use is a hard error; otherwise nil. -/
def confirmDeviceUnused (env : ConfirmEnv) : ConfirmResult :=
  match env.getDevicePath with
  | .error _ => .ignorable
  | .ok _ =>
    match env.evalSymlinks with
    | .error _ => .ignorable
    | .ok _ =>
      match env.isDeviceFilesystemInUse with
      | .error _ => .ignorable
      | .ok true => .inUse
      | .ok false => .unused

/-- The NodeUnstageVolumeRequest fields the node server reads. -/
structure UnstageReq where
  volumeID : String
  stagingTargetPath : String
deriving DecidableEq, Repr

/-- Outcomes of the collaborator calls NodeUnstageVolume makes, plus the wall
clock read by the device-in-use tracker. -/
structure UnstageEnv where
  cleanupStagePath : Option String
  confirm : ConfirmEnv
  now : Nat
  cleanupCache : Option String
deriving Repr

/-- Model of the body of NodeUnstageVolume executed under the volume lock
(node.go lines 595-624), threading the device-in-use record map: unmount the
staging path; when the in-use check is enabled, classify the
confirmDeviceUnused outcome — an ignorable error and an expired record are
logged and fall through to deleteDevice, a hard in-use error marks the record
and fails with an internal error, every non-failing path clears the record —
and finally, on a cache-enabled node pool, tear down the cache, a failure
being DataLoss. -/
def nodeUnstageLocked (cfg : NodeCfg) (m : List (String × Nat))
    (req : UnstageReq) (env : UnstageEnv) :
    (Except ErrCode Unit) × List (String × Nat) × List Effect :=
  match env.cleanupStagePath with
  | some _ => (.error .internal, m, [.unmountE req.stagingTargetPath])
  | none =>
    let tr := [Effect.unmountE req.stagingTargetPath]
    let step : Except ErrCode Unit × List (String × Nat) :=
      if cfg.enableDeviceInUseCheck then
        match confirmDeviceUnused env.confirm with
        | .unused => (.ok (), deleteDevice m req.volumeID)
        | .ignorable => (.ok (), deleteDevice m req.volumeID)
        | .inUse =>
          if deviceErrorExpired m req.volumeID env.now cfg.deviceInUseTimeout then
            (.ok (), deleteDevice m req.volumeID)
          else
            (.error .internal, markDeviceError m req.volumeID env.now)
      else (.ok (), m)
    match step with
    | (.error c, m2) => (.error c, m2, tr)
    | (.ok _, m2) =>
      if cfg.enableDataCache ∧ cfg.dataCacheEnabledNodePool then
        match env.cleanupCache with
        | some _ => (.error .dataLoss, m2, tr ++ [.cleanupCacheE])
        | none => (.ok (), m2, tr ++ [.cleanupCacheE])
      else (.ok (), m2, tr)

/-- Model of NodeUnstageVolume (node.go lines 579-625): argument validation,
try-acquire of the per-volume lock (Aborted when already held), the locked
body, and the deferred release on every exit path. -/
def nodeUnstageVolume (cfg : NodeCfg) (st : NodeState) (req : UnstageReq)
    (env : UnstageEnv) : (Except ErrCode Unit) × NodeState × List Effect :=
  if req.volumeID.length = 0 then (.error .invalidArgument, st, [])
  else if req.stagingTargetPath.length = 0 then (.error .invalidArgument, st, [])
  else if st.locks.contains req.volumeID then (.error .aborted, st, [])
  else
    let stHeld : NodeState := { st with locks := req.volumeID :: st.locks }
    let (r, m2, tr) := nodeUnstageLocked cfg st.deviceInUseErrors req env
    (r, { locks := stHeld.locks.erase req.volumeID, deviceInUseErrors := m2 }, tr)

/-! NodeExpandVolume (node.go lines 735-823). -/

/-- The NodeExpandVolumeRequest fields the node server reads. -/
structure ExpandReq where
  volumeID : String
  volumePath : String
  volumeCapability : Option VolumeCapability
deriving DecidableEq, Repr

/-- Outcomes of the collaborator calls NodeExpandVolume makes.
getRequestCapacity (pkg/gce-pd-csi-driver/controller.go, not under src/) is
modelled from the spec as the computed requested size from the capacity range,
or an error.  getBlockSizeBytes returns a size together with an optional
error, exactly as the Go call does — node.go reads both but tests only the
size. -/
structure ExpandEnv where
  getRequestCapacity : Except String Int
  volumeIDToKey : Except String String
  getDevicePath : Except String String
  resize : Option String
  getBlockSizeBytes : Int × Option String
deriving Repr

/-- Model of NodeExpandVolume (node.go lines 735-823): argument validation;
an optional capability is validated, a block capability and a read-only
capability are no-ops returning an empty response; otherwise the filesystem is
resized (failure is internal), the block size is read back — its error result
is bound but never tested — and the call fails iff the size read back is
strictly smaller than the requested bytes, otherwise it succeeds reporting the
requested bytes. -/
def nodeExpandVolume (req : ExpandReq) (env : ExpandEnv) : Except ErrCode Int :=
  if req.volumeID.length = 0 then .error .invalidArgument
  else match env.getRequestCapacity with
  | .error _ => .error .invalidArgument
  | .ok reqBytes =>
  if req.volumePath.length = 0 then .error .invalidArgument
  else match env.volumeIDToKey with
  | .error _ => .error .invalidArgument
  | .ok _ =>
  match env.getDevicePath with
  | .error _ => .error .internal
  | .ok _devicePath =>
  let postCap : Except ErrCode Int :=
    match env.resize with
    | some _ => .error .internal
    | none =>
      let sizeRead := env.getBlockSizeBytes
      let diskSizeBytes := sizeRead.1
      let _err := sizeRead.2
      if diskSizeBytes < reqBytes then .error .internal
      else .ok reqBytes
  match req.volumeCapability with
  | some cap =>
    if validateVolumeCapability cap = false then .error .invalidArgument
    else match cap.accessType with
    | some .block => .ok 0
    | _ =>
      if cap.readOnly then .ok 0
      else postCap
  | none => postCap

/-! GetVolumeLimits and NodeGetInfo (node.go lines 656-877). -/

/-- The shared-core machine types with the small attach limit. -/
def smallMachineTypes : List String :=
  ["f1-micro", "g1-small", "e2-micro", "e2-small", "e2-medium"]

/-- The recognized fourth-generation machine-type family name beginnings. -/
def gen4MachineTypesPfx : List String := ["c4a-", "c4-", "n4-", "c4d-"]

/-- Model of the sanity test on the attach-limit override label (node.go line
838): the lookup returned no error and the value is strictly between 0 and
128. -/
def overrideSane : Except Unit Int → Bool
  | .ok x => decide (0 < x) && decide (x < 128)
  | .error _ => false

/-- Model of the gen4 loop of GetVolumeLimits (node.go lines 851-868): for the
first family name beginning that the machine type starts with, split the type
on dashes; with more than two segments, parse the third as the CPU count and
index the hyperdisk attach-limit table with the family name (the dash
trimmed); a parse failure or a type with too few segments returns the large
constant together with a descriptive error. -/
def gen4Body (machineType : String) (tbl : String → Int → Int) (p : String) :
    Int × Option String :=
  let machineTypeSlice := goSplitDash machineType
  if 2 < machineTypeSlice.length then
    match goParseInt64 (machineTypeSlice.getD 2 "") with
    | some cpus => (tbl (goTrimSuffixDash p) cpus, none)
    | none => (volumeLimitBig, some "invalid cpuString for machine type")
  else (volumeLimitBig, some "unconventional machine type")

/-- Loop of the gen4 handling: the first matching family name beginning wins. -/
def gen4Limit (machineType : String) (tbl : String → Int → Int) :
    List String → Option (Int × Option String)
  | [] => none
  | p :: rest =>
    if goHasPrefix machineType p then some (gen4Body machineType tbl p)
    else gen4Limit machineType tbl rest

/-- Model of GetVolumeLimits (node.go lines 825-877).  The machine type comes
from instance metadata; the override is the result of the node-label lookup
(an external cluster API call); tbl is common.GetHyperdiskAttachLimit
(pkg/common, not under src/), modelled from the spec as an opaque
family-specific table.  Priority: exact shared-core match, then a sane
override, then the gen4 families, then the x4- and a4- beginnings, then the
large default. -/
def GetVolumeLimits (machineType : String) (override : Except Unit Int)
    (tbl : String → Int → Int) : Int × Option String :=
  if machineType ∈ smallMachineTypes then (volumeLimitSmall, none)
  else if overrideSane override then
    (match override with | .ok x => x | .error _ => 0, none)
  else match gen4Limit machineType tbl gen4MachineTypesPfx with
  | some r => r
  | none =>
    if goHasPrefix machineType "x4-" then (x4HyperdiskLimit, none)
    else if goHasPrefix machineType "a4-" then (a4HyperdiskLimit, none)
    else (volumeLimitBig, none)

/-- The NodeGetInfoResponse fields the node server fills in. -/
structure NodeGetInfoResponse where
  nodeId : String
  maxVolumesPerNode : Int
  accessibleTopologyZone : String
deriving DecidableEq, Repr

/-- Modelled from the spec: common.CreateNodeID (pkg/common, not under src/)
builds the node identity string from project, zone and instance name. -/
def createNodeID (project zone name : String) : String :=
  project ++ "/" ++ zone ++ "/" ++ name

/-- Model of NodeGetInfo (node.go lines 656-676): build the zone topology and
node ID, compute the volume limits, and swallow a limit-computation failure —
the error is logged and set to nil so that the driver can register — before
returning the response. -/
def NodeGetInfo (project zone name machineType : String)
    (override : Except Unit Int) (tbl : String → Int → Int) :
    NodeGetInfoResponse × Option ErrCode :=
  let nodeID := createNodeID project zone name
  let (volumeLimits, gErr) := GetVolumeLimits machineType override tbl
  let err : Option ErrCode :=
    if gErr.isSome then none
    else none
  ({ nodeId := nodeID, maxVolumesPerNode := volumeLimits,
     accessibleTopologyZone := zone }, err)

/-! Concrete fixtures used by witnesses and counterexamples. -/

/-- A well-formed mount capability. -/
def exMountCap : VolumeCapability :=
  { accessType := some (.mount "ext4" ["discard"]), hasAccessMode := true,
    readOnly := false }

/-- A configuration with every optional feature off except the in-use check. -/
def exCfg : NodeCfg :=
  { enableDataCache := false, dataCacheEnabledNodePool := false,
    enableDeviceInUseCheck := true, deviceInUseTimeout := 30 }

/-- The empty shared state: no lock held, no device-in-use record. -/
def emptySt : NodeState := { locks := [], deviceInUseErrors := [] }

/-- A stage environment in which every collaborator call succeeds. -/
def benignStageEnv : StageEnv :=
  { nodeId := "node-1", volumeIDToKey := .ok "disk-1",
    getDevicePath := .ok "/dev/sdb", evalSymlinks := .ok "/dev/sdb",
    validateDataCacheConfig := none, setupCaching := .ok "/dev/mapper/c",
    isVolumePathMounted := false, prepareStagePath := none,
    formatAndMount1 := none, formatAndMount2 := none, resize := none,
    isBlockDevice := .ok true, setReadAheadKB := none, blkid := .ok "uuid-1",
    writeSysfsData := none, writeSysfsMeta := none }

/-- An expand request with no capability attached. -/
def exExpandReq : ExpandReq :=
  { volumeID := "projects/p/zones/z/disks/d", volumePath := "/var/lib/pv1",
    volumeCapability := none }

/-- An expand environment: 10 GiB requested, 11 GiB measured after resize. -/
def exExpandEnv11 : ExpandEnv :=
  { getRequestCapacity := .ok (10 * 1073741824), volumeIDToKey := .ok "d",
    getDevicePath := .ok "/dev/sdb", resize := none,
    getBlockSizeBytes := (11 * 1073741824, none) }

/-- An expand environment whose post-resize size read fails while reporting a
size at least as large as the request. -/
def exExpandEnvErr : ExpandEnv :=
  { getRequestCapacity := .ok (10 * 1073741824), volumeIDToKey := .ok "d",
    getDevicePath := .ok "/dev/sdb", resize := none,
    getBlockSizeBytes := (11 * 1073741824, some "ioctl failed") }

/-- A stage request asking for the data cache. -/
def exCacheStageReq : StageReq :=
  { volumeID := "vol-1", stagingTargetPath := "/staging",
    volumeCapability := some exMountCap, dataCacheMode := "writethrough",
    dataCacheSize := "10Gi" }

/-- A configuration with the data cache enabled globally but the node pool not
cache-enabled. -/
def exCacheCfgNoPool : NodeCfg :=
  { enableDataCache := true, dataCacheEnabledNodePool := false,
    enableDeviceInUseCheck := false, deviceInUseTimeout := 30 }

/-- A stage environment in which the cache-configuration validation fails. -/
def exBadCacheEnv : StageEnv :=
  { benignStageEnv with validateDataCacheConfig := some "invalid cache mode" }

/-- An unstage request. -/
def exUnstageReq : UnstageReq :=
  { volumeID := "vol-1", stagingTargetPath := "/staging" }

/-- An unstage environment whose device is reported still in use at time 100. -/
def exUnstageEnvInUse : UnstageEnv :=
  { cleanupStagePath := none,
    confirm := { getDevicePath := .ok "/dev/sdb", evalSymlinks := .ok "/dev/sdb",
                 isDeviceFilesystemInUse := .ok true },
    now := 100, cleanupCache := none }

/-- A read-only ext4 mount capability. -/
def exRoCap : VolumeCapability :=
  { accessType := some (.mount "ext4" []), hasAccessMode := true,
    readOnly := true }

/-- A stage request with the read-only ext4 capability. -/
def exRoStageReq : StageReq :=
  { volumeID := "vol-1", stagingTargetPath := "/staging",
    volumeCapability := some exRoCap, dataCacheMode := "", dataCacheSize := "" }

/-- A stage environment whose first format-and-mount attempt fails and whose
retry succeeds. -/
def exRetryEnv : StageEnv :=
  { benignStageEnv with formatAndMount1 := some "mount failed" }

/-- A mount-option token free of the read-ahead and btrfs-reclaim patterns. -/
def cleanMountToken (x : String) : Prop :=
  readAheadValue? x = none ∧ btrfsDataValue? x = none ∧ btrfsMetaValue? x = none

/-- A stage request carrying a read-ahead flag among its mount flags. -/
def exFlagStageReq : StageReq :=
  { volumeID := "vol-1", stagingTargetPath := "/staging",
    volumeCapability := some
      { accessType := some (.mount "ext4" ["read_ahead_kb=128", "discard"]),
        hasAccessMode := true, readOnly := false },
    dataCacheMode := "", dataCacheSize := "" }

/-- A stage request whose only read-ahead flag has an unparseable value. -/
def c9BadFlagReq : StageReq :=
  { volumeID := "vol-1", stagingTargetPath := "/staging",
    volumeCapability := some
      { accessType := some (.mount "ext4" ["read_ahead_kb=x"]),
        hasAccessMode := true, readOnly := false },
    dataCacheMode := "", dataCacheSize := "" }

/-- The flag list of the C9 counterexample: a well-formed read-ahead token
followed by an unparseable one. -/
def c9Flags : List String := ["read_ahead_kb=100", "read_ahead_kb=x"]

/-- A stage request carrying the C9 counterexample flags. -/
def c9StageReq : StageReq :=
  { volumeID := "vol-1", stagingTargetPath := "/staging",
    volumeCapability := some
      { accessType := some (.mount "ext4" c9Flags),
        hasAccessMode := true, readOnly := false },
    dataCacheMode := "", dataCacheSize := "" }

/-- C8: NodeGetInfo never returns an error to the caller: for every outcome of
the attach-limit computation, including failure, the response carrying the
node ID, the zone topology and the computed volume limit is returned with a
nil error, the limit-computation failure being only logged. -/
theorem c8_nodeGetInfo_never_fails (project zone name machineType : String)
    (override : Except Unit Int) (tbl : String → Int → Int) :
    (NodeGetInfo project zone name machineType override tbl).2 = none ∧
    (NodeGetInfo project zone name machineType override tbl).1 =
      { nodeId := createNodeID project zone name,
        maxVolumesPerNode := (GetVolumeLimits machineType override tbl).1,
        accessibleTopologyZone := zone } := by
  rcases h : GetVolumeLimits machineType override tbl with ⟨vl, gErr⟩
  cases gErr <;> simp [NodeGetInfo, h]

/-- C3: for every NodeExpandVolume call that reaches the post-resize
verification, the call fails only when the measured device size is strictly
smaller than the requested bytes; a measured size at least the request
(including strictly larger, from rounding) is a success whose reported
capacity is the originally requested bytes, never the raw measured size. -/
theorem c3_expand_post_resize_check (req : ExpandReq) (env : ExpandEnv)
    (reqBytes : Int)
    (hvid : req.volumeID.length ≠ 0)
    (hcap : env.getRequestCapacity = .ok reqBytes)
    (hvp : req.volumePath.length ≠ 0)
    (hkey : ∃ k, env.volumeIDToKey = .ok k)
    (hdev : ∃ d, env.getDevicePath = .ok d)
    (hcapab : req.volumeCapability = none ∨
      ∃ cap f fl, req.volumeCapability = some cap ∧
        validateVolumeCapability cap = true ∧
        cap.accessType = some (.mount f fl) ∧ cap.readOnly = false)
    (hresize : env.resize = none) :
    (env.getBlockSizeBytes.1 < reqBytes →
      nodeExpandVolume req env = .error .internal) ∧
    (reqBytes ≤ env.getBlockSizeBytes.1 →
      nodeExpandVolume req env = .ok reqBytes) := by
  obtain ⟨k, hk⟩ := hkey
  obtain ⟨d, hd⟩ := hdev
  rcases hcapab with hnone | ⟨cap, f, fl, hsome, hval, hat, hro⟩
  · constructor <;> intro hcmp <;>
      simp [nodeExpandVolume, hvid, hcap, hvp, hk, hd, hresize, hcmp, hnone]
  · constructor <;> intro hcmp <;>
      simp [nodeExpandVolume, hvid, hcap, hvp, hk, hd, hresize, hcmp,
        hsome, hval, hat, hro]

/-- Witness for C3 at the rounding scenario of the spec: 10 GiB requested,
11 GiB measured, the call succeeds reporting the requested 10 GiB. -/
theorem c3_expand_post_resize_check_witness :
    nodeExpandVolume exExpandReq exExpandEnv11 = .ok (10 * 1073741824) := by
  have h := c3_expand_post_resize_check exExpandReq exExpandEnv11
    (10 * 1073741824) (by decide) rfl (by decide) ⟨_, rfl⟩ ⟨_, rfl⟩
    (Or.inl rfl) rfl
  exact h.2 (by norm_num [exExpandEnv11])

/-- C10: in NodeExpandVolume the error returned by the post-resize block-size
read is never surfaced: once the resize has succeeded, the outcome depends
only on the numeric comparison of the size value against the requested bytes,
so a size read that fails while returning a value at least the request still
succeeds reporting the requested bytes. -/
theorem c10_expand_size_read_error_ignored (req : ExpandReq) (env : ExpandEnv)
    (reqBytes sz : Int) (e : String)
    (hvid : req.volumeID.length ≠ 0)
    (hcap : env.getRequestCapacity = .ok reqBytes)
    (hvp : req.volumePath.length ≠ 0)
    (hkey : ∃ k, env.volumeIDToKey = .ok k)
    (hdev : ∃ d, env.getDevicePath = .ok d)
    (hcapab : req.volumeCapability = none)
    (hresize : env.resize = none)
    (hsz : env.getBlockSizeBytes = (sz, some e)) :
    nodeExpandVolume req env =
      nodeExpandVolume req { env with getBlockSizeBytes := (sz, none) } ∧
    (reqBytes ≤ sz → nodeExpandVolume req env = .ok reqBytes) := by
  obtain ⟨k, hk⟩ := hkey
  obtain ⟨d, hd⟩ := hdev
  constructor
  · simp [nodeExpandVolume, hvid, hcap, hvp, hk, hd, hresize, hcapab, hsz]
  · intro hcmp
    simp [nodeExpandVolume, hvid, hcap, hvp, hk, hd, hresize, hcapab, hsz,
      not_lt.mpr hcmp]

/-- Witness for C10: the size read fails with an error while reporting 11 GiB
for a 10 GiB request, and the call succeeds reporting the requested bytes. -/
theorem c10_expand_size_read_error_ignored_witness :
    nodeExpandVolume exExpandReq exExpandEnvErr = .ok (10 * 1073741824) := by
  have h := c10_expand_size_read_error_ignored exExpandReq exExpandEnvErr
    (10 * 1073741824) (11 * 1073741824) "ioctl failed" (by decide) rfl
    (by decide) ⟨_, rfl⟩ ⟨_, rfl⟩ rfl rfl rfl
  exact h.2 (by norm_num)

/-- C6: in NodeStageVolume, when data-cache parameters are present, the global
cache flag is enabled and the cache configuration is invalid, the call fails
with the escalated DataLoss class on a cache-enabled node pool and with an
ordinary InvalidArgument on a non-cache-enabled pool. -/
theorem c6_data_cache_invalid_config (cfg : NodeCfg) (st : NodeState)
    (req : StageReq) (env : StageEnv) (cap : VolumeCapability) (msg : String)
    (hvid : req.volumeID.length ≠ 0)
    (hsp : req.stagingTargetPath.length ≠ 0)
    (hcapab : req.volumeCapability = some cap)
    (hlock : st.locks.contains req.volumeID = false)
    (hval : validateVolumeCapability cap = true)
    (hkey : ∃ k, env.volumeIDToKey = .ok k)
    (hdev : ∃ d, env.getDevicePath = .ok d)
    (hflag : cfg.enableDataCache = true)
    (hparams : req.dataCacheSize ≠ "" ∨ req.dataCacheMode ≠ "")
    (hnode : env.nodeId.length ≠ 0)
    (hconfig : env.validateDataCacheConfig = some msg) :
    (nodeStageVolume cfg st req env).1 =
      .error (if cfg.dataCacheEnabledNodePool then .dataLoss
        else .invalidArgument) := by
  obtain ⟨k, hk⟩ := hkey
  obtain ⟨d, hd⟩ := hdev
  have hlock2 : ¬ (req.volumeID ∈ st.locks) := by simpa using hlock
  cases hpool : cfg.dataCacheEnabledNodePool <;>
    simp [nodeStageVolume, nodeStageLocked, stageCacheStep, hvid, hsp, hcapab,
      hlock2, hval, hk, hd, hflag, hparams, hnode, hconfig, hpool]

/-- Witness for C6: cache requested on a non-cache-enabled pool with an
invalid configuration yields InvalidArgument, not the escalated class. -/
theorem c6_data_cache_invalid_config_witness :
    (nodeStageVolume exCacheCfgNoPool emptySt exCacheStageReq exBadCacheEnv).1 =
      .error .invalidArgument := by
  have h := c6_data_cache_invalid_config exCacheCfgNoPool emptySt
    exCacheStageReq exBadCacheEnv exMountCap "invalid cache mode"
    (by decide) (by decide) rfl rfl rfl ⟨_, rfl⟩ ⟨_, rfl⟩ rfl
    (Or.inl (by decide)) (by decide) rfl
  simpa using h

/-- Clearing a key removes its device-in-use record. -/
theorem deviceErrLookup_deleteDevice (m : List (String × Nat)) (k : String) :
    deviceErrLookup (deleteDevice m k) k = none := by
  induction m with
  | nil => rfl
  | cons e rest ih =>
    by_cases h : e.1 = k
    · simpa [deleteDevice, h] using ih
    · simpa [deleteDevice, deviceErrLookup, List.find?, h] using ih

/-- Marking a key with no record creates a record with the given time. -/
theorem deviceErrLookup_markDeviceError_none (m : List (String × Nat))
    (k : String) (now : Nat) (h : deviceErrLookup m k = none) :
    deviceErrLookup (markDeviceError m k now) k = some now := by
  unfold markDeviceError
  rw [h]
  simp [deviceErrLookup, List.find?]

/-- Marking a key that already has a record retains the map unchanged. -/
theorem markDeviceError_of_some (m : List (String × Nat)) (k : String)
    (now t : Nat) (h : deviceErrLookup m k = some t) :
    markDeviceError m k now = m := by
  simp [markDeviceError, h]

/-- C2: during NodeUnstageVolume with the in-use check enabled (and the cache
teardown benign): a failed device-path resolution or in-use query clears any
record and succeeds; a device not in use clears the record and succeeds; a
device in use with no record creates a record at the current time and fails;
in use with an unexpired record fails and retains the record; in use with a
record whose age reached the timeout clears the record and succeeds. -/
theorem c2_unstage_device_in_use_tracker (cfg : NodeCfg) (st : NodeState)
    (req : UnstageReq) (env : UnstageEnv)
    (h1 : req.volumeID.length ≠ 0)
    (h2 : req.stagingTargetPath.length ≠ 0)
    (h3 : st.locks.contains req.volumeID = false)
    (h4 : env.cleanupStagePath = none)
    (h5 : cfg.enableDeviceInUseCheck = true)
    (h6 : env.cleanupCache = none) :
    (confirmDeviceUnused env.confirm = .ignorable →
      (nodeUnstageVolume cfg st req env).1 = .ok () ∧
      deviceErrLookup (nodeUnstageVolume cfg st req env).2.1.deviceInUseErrors
        req.volumeID = none) ∧
    (confirmDeviceUnused env.confirm = .unused →
      (nodeUnstageVolume cfg st req env).1 = .ok () ∧
      deviceErrLookup (nodeUnstageVolume cfg st req env).2.1.deviceInUseErrors
        req.volumeID = none) ∧
    (confirmDeviceUnused env.confirm = .inUse →
      (deviceErrLookup st.deviceInUseErrors req.volumeID = none →
        (nodeUnstageVolume cfg st req env).1 = .error .internal ∧
        deviceErrLookup (nodeUnstageVolume cfg st req env).2.1.deviceInUseErrors
          req.volumeID = some env.now) ∧
      (∀ t, deviceErrLookup st.deviceInUseErrors req.volumeID = some t →
        (env.now - t < cfg.deviceInUseTimeout →
          (nodeUnstageVolume cfg st req env).1 = .error .internal ∧
          deviceErrLookup (nodeUnstageVolume cfg st req env).2.1.deviceInUseErrors
            req.volumeID = some t) ∧
        (cfg.deviceInUseTimeout ≤ env.now - t →
          (nodeUnstageVolume cfg st req env).1 = .ok () ∧
          deviceErrLookup (nodeUnstageVolume cfg st req env).2.1.deviceInUseErrors
            req.volumeID = none))) := by
  have hlock2 : ¬ req.volumeID ∈ st.locks := by simpa using h3
  refine ⟨?_, ?_, ?_⟩
  · intro hc
    by_cases hdc : cfg.enableDataCache ∧ cfg.dataCacheEnabledNodePool <;>
      simp [nodeUnstageVolume, nodeUnstageLocked, h1, h2, hlock2, h4, h5, h6,
        hc, hdc, deviceErrLookup_deleteDevice]
  · intro hc
    by_cases hdc : cfg.enableDataCache ∧ cfg.dataCacheEnabledNodePool <;>
      simp [nodeUnstageVolume, nodeUnstageLocked, h1, h2, hlock2, h4, h5, h6,
        hc, hdc, deviceErrLookup_deleteDevice]
  · intro hc
    constructor
    · intro hrec
      have hexp : deviceErrorExpired st.deviceInUseErrors req.volumeID env.now
          cfg.deviceInUseTimeout = false := by
        simp [deviceErrorExpired, hrec]
      simp [nodeUnstageVolume, nodeUnstageLocked, h1, h2, hlock2, h4, h5, h6,
        hc, hexp, deviceErrLookup_markDeviceError_none _ _ _ hrec]
    · intro t hrec
      constructor
      · intro hlt
        have hexp : deviceErrorExpired st.deviceInUseErrors req.volumeID env.now
            cfg.deviceInUseTimeout = false := by
          simp [deviceErrorExpired, hrec]
          omega
        simp [nodeUnstageVolume, nodeUnstageLocked, h1, h2, hlock2, h4, h5, h6,
          hc, hexp, markDeviceError_of_some _ _ _ _ hrec, hrec]
      · intro hge
        have hexp : deviceErrorExpired st.deviceInUseErrors req.volumeID env.now
            cfg.deviceInUseTimeout = true := by
          simp [deviceErrorExpired, hrec]
          omega
        by_cases hdc : cfg.enableDataCache ∧ cfg.dataCacheEnabledNodePool <;>
          simp [nodeUnstageVolume, nodeUnstageLocked, h1, h2, hlock2, h4, h5,
            h6, hc, hexp, hdc, deviceErrLookup_deleteDevice]

/-- Witness for C2: a first in-use observation on an empty tracker fails with
an internal error and records the current time. -/
theorem c2_unstage_device_in_use_tracker_witness :
    (nodeUnstageVolume exCfg emptySt exUnstageReq exUnstageEnvInUse).1 =
      .error .internal ∧
    deviceErrLookup (nodeUnstageVolume exCfg emptySt exUnstageReq
      exUnstageEnvInUse).2.1.deviceInUseErrors "vol-1" = some 100 := by
  have h := c2_unstage_device_in_use_tracker exCfg emptySt exUnstageReq
    exUnstageEnvInUse (by decide) (by decide) rfl rfl rfl rfl
  exact (h.2.2 rfl).1 rfl

/-- C4: in NodeStageVolume, when the format-and-mount step fails, exactly one
retry with the noload (skip journal replay) option appended is performed iff
the capability is read-only and the resolved filesystem type is ext4 or ext3;
any other fstype or a non-read-only capability returns an internal error with
no retry, and a failing retry also returns an internal error — the trace shows
exactly one or exactly two format-and-mount attempts, never more. -/
theorem c4_noload_retry (cfg : NodeCfg) (st : NodeState) (req : StageReq)
    (env : StageEnv) (cap : VolumeCapability) (fsTypeReq : String)
    (mountFlags : List String) (dp k : String) (ra : Int) (su : Bool)
    (e1 : String) (ft : String) (opts : List String)
    (hvid : req.volumeID.length ≠ 0)
    (hsp : req.stagingTargetPath.length ≠ 0)
    (hcap : req.volumeCapability = some cap)
    (hlock : st.locks.contains req.volumeID = false)
    (hat : cap.accessType = some (.mount fsTypeReq mountFlags))
    (ham : cap.hasAccessMode = true)
    (hkey : env.volumeIDToKey = .ok k)
    (hdev : env.getDevicePath = .ok dp)
    (hdc : cfg.enableDataCache = false)
    (hmnt : env.isVolumePathMounted = false)
    (hprep : env.prepareStagePath = none)
    (hextract : extractReadAheadKBMountFlag mountFlags = .ok (ra, su))
    (hfm1 : env.formatAndMount1 = some e1)
    (hft : ft = if fsTypeReq ≠ "" then fsTypeReq else getDefaultFsType)
    (hopts : opts = if cap.readOnly then collectMountOptions ft mountFlags ++ ["ro"]
      else collectMountOptions ft mountFlags) :
    ((cap.readOnly = true ∧ (ft = defaultLinuxFsType ∨ ft = fsTypeExt3)) →
      (nodeStageVolume cfg st req env).2.2 =
        [.prepareStagePathE req.stagingTargetPath,
         .formatAndMountE dp req.stagingTargetPath ft opts,
         .formatAndMountE dp req.stagingTargetPath ft (opts ++ ["noload"])] ∧
      (env.formatAndMount2 = none →
        (nodeStageVolume cfg st req env).1 = .ok ()) ∧
      (∀ e2, env.formatAndMount2 = some e2 →
        (nodeStageVolume cfg st req env).1 = .error .internal)) ∧
    (¬ (cap.readOnly = true ∧ (ft = defaultLinuxFsType ∨ ft = fsTypeExt3)) →
      (nodeStageVolume cfg st req env).1 = .error .internal ∧
      (nodeStageVolume cfg st req env).2.2 =
        [.prepareStagePathE req.stagingTargetPath,
         .formatAndMountE dp req.stagingTargetPath ft opts]) := by
  have hlock2 : ¬ req.volumeID ∈ st.locks := by simpa using hlock
  have hval : validateVolumeCapability cap = true := by
    simp [validateVolumeCapability, ham, hat]
  subst hft
  subst hopts
  constructor
  · rintro ⟨hro, hfs⟩
    simp only [ne_eq, ite_not] at hfs
    refine ⟨?_, ?_, ?_⟩
    · rcases hfs with hfs | hfs <;>
        simp [nodeStageVolume, nodeStageLocked, stageCacheStep,
          stageMountAndFinish, stageMountAttempt, hvid, hsp, hcap, hlock2, hval, hat, hkey, hdev,
          hdc, hmnt, hprep, hextract, hfm1, hro, hfs] <;>
        cases env.formatAndMount2 <;> simp
    · intro hfm2
      rcases hfs with hfs | hfs <;>
        simp [nodeStageVolume, nodeStageLocked, stageCacheStep,
          stageMountAndFinish, stageMountAttempt, hvid, hsp, hcap, hlock2, hval, hat, hkey, hdev,
          hdc, hmnt, hprep, hextract, hfm1, hfm2, hro, hfs]
    · intro e2 hfm2
      rcases hfs with hfs | hfs <;>
        simp [nodeStageVolume, nodeStageLocked, stageCacheStep,
          stageMountAndFinish, stageMountAttempt, hvid, hsp, hcap, hlock2, hval, hat, hkey, hdev,
          hdc, hmnt, hprep, hextract, hfm1, hfm2, hro, hfs]
  · intro hn
    simp only [ne_eq, ite_not] at hn
    constructor <;>
      simp [nodeStageVolume, nodeStageLocked, stageCacheStep,
        stageMountAndFinish, stageMountAttempt, hvid, hsp, hcap, hlock2, hval, hat, hkey, hdev,
        hdc, hmnt, hprep, hextract, hfm1, hn]

/-- Witness for C4: read-only ext4 with a failing first attempt retries once
with noload and succeeds, the trace showing exactly two attempts. -/
theorem c4_noload_retry_witness :
    (nodeStageVolume exCfg emptySt exRoStageReq exRetryEnv).1 = .ok () ∧
    (nodeStageVolume exCfg emptySt exRoStageReq exRetryEnv).2.2 =
      [.prepareStagePathE "/staging",
       .formatAndMountE "/dev/sdb" "/staging" "ext4" ["ro"],
       .formatAndMountE "/dev/sdb" "/staging" "ext4" ["ro", "noload"]] := by
  have h := c4_noload_retry exCfg emptySt exRoStageReq exRetryEnv exRoCap
    "ext4" [] "/dev/sdb" "disk-1" (-1) false "mount failed" "ext4" ["ro"]
    (by decide) (by decide) rfl rfl rfl rfl rfl rfl rfl rfl rfl rfl rfl
    (by decide) (by decide)
  have h1 := h.1 ⟨rfl, Or.inl rfl⟩
  refine ⟨h1.2.1 rfl, ?_⟩
  simpa using h1.1

/-- Every option produced by the mount-option filter is free of the read-ahead
and btrfs-reclaim tunable patterns. -/
theorem collectMountOptions_clean (ft : String) (fl : List String) (o : String)
    (h : o ∈ collectMountOptions ft fl) :
    readAheadValue? o = none ∧ btrfsDataValue? o = none ∧
    btrfsMetaValue? o = none := by
  rcases List.mem_filter.mp h with ⟨-, hp⟩
  have hp2 : ((readAheadValue? o).isNone && (btrfsDataValue? o).isNone &&
      (btrfsMetaValue? o).isNone) = true := hp
  simp only [Bool.and_eq_true, Option.isNone_iff_eq_none] at hp2
  exact ⟨hp2.1.1, hp2.1.2, hp2.2⟩

/-- Trace shape of the resize step: it appends only a resize effect. -/
theorem stageResizeStep_mem (req : StageReq) (env : StageEnv) (dp : String)
    (ro : Bool) (tr : List Effect) (e : Effect)
    (h : e ∈ (stageResizeStep req env dp ro tr).2) :
    e ∈ tr ∨ e = .resizeE dp req.stagingTargetPath := by
  unfold stageResizeStep at h
  repeat' split at h
  all_goals simp_all [List.mem_append]

/-- Trace shape of the read-ahead step: it appends only a read-ahead effect. -/
theorem stageReadAheadStep_mem (env : StageEnv) (dp : String) (ra : Int)
    (su : Bool) (tr : List Effect) (e : Effect)
    (h : e ∈ (stageReadAheadStep env dp ra su tr).2) :
    e ∈ tr ∨ (su = true ∧ e = .readAheadE dp ra) := by
  unfold stageReadAheadStep at h
  repeat' split at h
  all_goals simp_all [List.mem_append]

/-- Trace shape of the metadata sysfs write: it appends only that write, and
only when a metadata tunable was requested. -/
theorem stageSysfsMeta_mem (env : StageEnv) (bm : String) (tr : List Effect)
    (e : Effect) (h : e ∈ (stageSysfsMeta env bm tr).2) :
    e ∈ tr ∨ (bm ≠ "" ∧
      e = .sysfsWriteE "allocation/metadata/bg_reclaim_threshold" bm) := by
  unfold stageSysfsMeta at h
  repeat' split at h
  all_goals simp_all [List.mem_append]

/-- Trace shape of the sysfs step: it appends only sysfs writes, and only for
tunables that were requested. -/
theorem stageSysfsStep_mem (env : StageEnv) (ro : Bool) (bd bm : String)
    (tr : List Effect) (e : Effect)
    (h : e ∈ (stageSysfsStep env ro bd bm tr).2) :
    e ∈ tr ∨
    (bd ≠ "" ∧ e = .sysfsWriteE "allocation/data/bg_reclaim_threshold" bd) ∨
    (bm ≠ "" ∧
      e = .sysfsWriteE "allocation/metadata/bg_reclaim_threshold" bm) := by
  unfold stageSysfsStep at h
  by_cases hc : ((!ro) = true ∧ (bd ≠ "" ∨ bm ≠ ""))
  · simp only [if_pos hc] at h
    cases hbk : env.blkid with
    | error a =>
      simp only [hbk] at h
      exact Or.inl h
    | ok u =>
      simp only [hbk] at h
      by_cases hbd : bd = ""
      · simp only [hbd, if_neg] at h
        rcases stageSysfsMeta_mem _ _ _ _ h with h2 | ⟨hbm, h2⟩
        · exact Or.inl h2
        · exact Or.inr (Or.inr ⟨hbm, h2⟩)
      · simp only [if_pos hbd] at h
        cases hwd : env.writeSysfsData with
        | some v =>
          simp only [hwd] at h
          rcases List.mem_append.mp h with h3 | h3
          · exact Or.inl h3
          · simp at h3
            exact Or.inr (Or.inl ⟨hbd, h3⟩)
        | none =>
          simp only [hwd] at h
          rcases stageSysfsMeta_mem _ _ _ _ h with h2 | ⟨hbm, h2⟩
          · rcases List.mem_append.mp h2 with h3 | h3
            · exact Or.inl h3
            · simp at h3
              exact Or.inr (Or.inl ⟨hbd, h3⟩)
          · exact Or.inr (Or.inr ⟨hbm, h2⟩)
  · simp only [if_neg hc] at h
    exact Or.inl h

/-- Trace shape of parts 4-6: only resize, read-ahead and requested sysfs
effects are appended. -/
theorem stagePost_mem (req : StageReq) (env : StageEnv) (dp : String)
    (ro : Bool) (ra : Int) (su : Bool) (bd bm : String) (tr : List Effect)
    (e : Effect) (h : e ∈ (stagePost req env dp ro ra su bd bm tr).2) :
    e ∈ tr ∨ e = .resizeE dp req.stagingTargetPath ∨
    (su = true ∧ e = .readAheadE dp ra) ∨
    (bd ≠ "" ∧ e = .sysfsWriteE "allocation/data/bg_reclaim_threshold" bd) ∨
    (bm ≠ "" ∧
      e = .sysfsWriteE "allocation/metadata/bg_reclaim_threshold" bm) := by
  unfold stagePost at h
  rcases h1 : stageResizeStep req env dp ro tr with ⟨r1, tr1⟩
  rw [h1] at h
  have hs1 : ∀ x, x ∈ tr1 →
      x ∈ tr ∨ x = Effect.resizeE dp req.stagingTargetPath := by
    intro x hx
    exact stageResizeStep_mem req env dp ro tr x (by rw [h1]; exact hx)
  cases r1 with
  | some e1 =>
    dsimp at h
    rcases hs1 e h with h2 | h2
    · exact Or.inl h2
    · exact Or.inr (Or.inl h2)
  | none =>
    dsimp at h
    rcases h2 : stageReadAheadStep env dp ra su tr1 with ⟨r2, tr2⟩
    rw [h2] at h
    have hs2 : ∀ x, x ∈ tr2 →
        x ∈ tr1 ∨ (su = true ∧ x = Effect.readAheadE dp ra) := by
      intro x hx
      exact stageReadAheadStep_mem env dp ra su tr1 x (by rw [h2]; exact hx)
    cases r2 with
    | some e2 =>
      dsimp at h
      rcases hs2 e h with h3 | h3
      · rcases hs1 e h3 with h4 | h4
        · exact Or.inl h4
        · exact Or.inr (Or.inl h4)
      · exact Or.inr (Or.inr (Or.inl h3))
    | none =>
      dsimp at h
      rcases stageSysfsStep_mem env ro bd bm tr2 e h with h3 | h3 | h3
      · rcases hs2 e h3 with h4 | h4
        · rcases hs1 e h4 with h5 | h5
          · exact Or.inl h5
          · exact Or.inr (Or.inl h5)
        · exact Or.inr (Or.inr (Or.inl h4))
      · exact Or.inr (Or.inr (Or.inr (Or.inl h3)))
      · exact Or.inr (Or.inr (Or.inr (Or.inr h3)))

/-- Every format-and-mount effect appended by the mount attempt carries the
final option list or that list with noload added. -/
theorem stageMountAttempt_fmt (req : StageReq) (env : StageEnv) (dp : String)
    (ro : Bool) (ft : String) (opts : List String) (ra : Int) (su : Bool)
    (bd bm : String) (tr : List Effect) (a b c : String) (o : List String)
    (h : Effect.formatAndMountE a b c o ∈
      (stageMountAttempt req env dp ro ft opts ra su bd bm tr).2) :
    Effect.formatAndMountE a b c o ∈ tr ∨ o = opts ∨ o = opts ++ ["noload"] := by
  unfold stageMountAttempt at h
  cases hfm : env.formatAndMount1 with
  | some v =>
    simp only [hfm] at h
    by_cases hc : (ro = true ∧ (ft = defaultLinuxFsType ∨ ft = fsTypeExt3))
    · simp only [if_pos hc] at h
      cases hfm2 : env.formatAndMount2 with
      | none =>
        simp only [hfm2] at h
        rcases List.mem_append.mp h with h3 | h3
        · exact Or.inl h3
        · simp at h3
          rcases h3 with ⟨-, -, -, h4⟩ | ⟨-, -, -, h4⟩
          · exact Or.inr (Or.inl h4)
          · exact Or.inr (Or.inr h4)
      | some v2 =>
        simp only [hfm2] at h
        rcases List.mem_append.mp h with h3 | h3
        · exact Or.inl h3
        · simp at h3
          rcases h3 with ⟨-, -, -, h4⟩ | ⟨-, -, -, h4⟩
          · exact Or.inr (Or.inl h4)
          · exact Or.inr (Or.inr h4)
    · simp only [if_neg hc] at h
      rcases List.mem_append.mp h with h3 | h3
      · exact Or.inl h3
      · simp at h3
        exact Or.inr (Or.inl h3.2.2.2)
  | none =>
    simp only [hfm] at h
    rcases stagePost_mem _ _ _ _ _ _ _ _ _ _ h with h2 | h2 | h2 | h2 | h2
    · rcases List.mem_append.mp h2 with h3 | h3
      · exact Or.inl h3
      · simp at h3
        exact Or.inr (Or.inl h3.2.2.2)
    · simp at h2
    · simp at h2
    · exact absurd h2.2 (by simp)
    · exact absurd h2.2 (by simp)

/-- Every format-and-mount effect appended by part 3 carries the filtered
option list (with ro added for a read-only capability), or that list with
noload added. -/
theorem stageMountAndFinish_fmt (req : StageReq) (env : StageEnv)
    (dp : String) (ro : Bool) (ft : String) (options : List String) (ra : Int)
    (su : Bool) (bd bm : String) (tr : List Effect) (a b c : String)
    (o : List String)
    (h : Effect.formatAndMountE a b c o ∈
      (stageMountAndFinish req env dp ro ft options ra su bd bm tr).2) :
    Effect.formatAndMountE a b c o ∈ tr ∨
    o = (if ro then options ++ ["ro"] else options) ∨
    o = (if ro then options ++ ["ro"] else options) ++ ["noload"] := by
  unfold stageMountAndFinish at h
  exact stageMountAttempt_fmt _ _ _ _ _ _ _ _ _ _ _ _ _ _ _ h

/-- The ro token added for read-only mounts matches no tunable pattern. -/
theorem cleanMountToken_ro : cleanMountToken "ro" := by
  refine ⟨?_, ?_, ?_⟩ <;> decide

/-- The noload token added by the retry matches no tunable pattern. -/
theorem cleanMountToken_noload : cleanMountToken "noload" := by
  refine ⟨?_, ?_, ?_⟩ <;> decide

/-- Appending one clean token preserves cleanliness of an option list. -/
theorem cleanMountToken_extend {base : List String}
    (hbase : ∀ x ∈ base, cleanMountToken x) {s : String}
    (hs : cleanMountToken s) : ∀ x ∈ base ++ [s], cleanMountToken x := by
  intro x hx
  rcases List.mem_append.mp hx with h | h
  · exact hbase x h
  · simp at h
    subst h
    exact hs

/-- Every format-and-mount effect of part 3 started from a clean base option
list and the staging-directory effect carries only clean tokens. -/
theorem stageMountAndFinish_options_clean {req : StageReq} {env : StageEnv}
    {dp : String} {ro : Bool} {ft : String} {base : List String} {ra : Int}
    {su : Bool} {bd bm : String} {sp : String} {a b c : String}
    {o : List String}
    (hbase : ∀ x ∈ base, cleanMountToken x)
    (h : Effect.formatAndMountE a b c o ∈
      (stageMountAndFinish req env dp ro ft base ra su bd bm
        [Effect.prepareStagePathE sp]).2) :
    ∀ x ∈ o, cleanMountToken x := by
  have hfull : ∀ x ∈ (if ro then base ++ ["ro"] else base), cleanMountToken x := by
    cases ro with
    | true => simpa using cleanMountToken_extend hbase cleanMountToken_ro
    | false => simpa using hbase
  rcases stageMountAndFinish_fmt _ _ _ _ _ _ _ _ _ _ _ _ _ _ _ h with h2 | h2 | h2
  · simp at h2
  · subst h2
    exact hfull
  · subst h2
    exact cleanMountToken_extend hfull cleanMountToken_noload

/-- Every format-and-mount effect of the locked stage body carries only
options free of the tunable patterns. -/
theorem nodeStageLocked_fmt (cfg : NodeCfg) (req : StageReq)
    (cap : VolumeCapability) (env : StageEnv) (a b c : String) (o : List String)
    (h : Effect.formatAndMountE a b c o ∈ (nodeStageLocked cfg req cap env).2) :
    ∀ x ∈ o, cleanMountToken x := by
  unfold nodeStageLocked at h
  repeat' split at h
  all_goals try simp_all
  all_goals
    first
      | exact stageMountAndFinish_options_clean
          (fun x hx => collectMountOptions_clean _ _ x hx) h
      | exact stageMountAndFinish_options_clean
          (fun x hx => absurd hx (List.not_mem_nil x)) h

/-- With no btrfs tunable requested, part 3 and parts 4-6 append no
sysfs-write effect. -/
theorem stageMountAndFinish_no_sysfs {req : StageReq} {env : StageEnv}
    {dp : String} {ro : Bool} {ft : String} {base : List String} {ra : Int}
    {su : Bool} {sp : String} {a b : String}
    (h : Effect.sysfsWriteE a b ∈
      (stageMountAndFinish req env dp ro ft base ra su "" ""
        [Effect.prepareStagePathE sp]).2) : False := by
  unfold stageMountAndFinish stageMountAttempt at h
  cases hfm : env.formatAndMount1 with
  | some v =>
    simp only [hfm] at h
    by_cases hc : (ro = true ∧ (ft = defaultLinuxFsType ∨ ft = fsTypeExt3))
    · simp only [if_pos hc] at h
      cases hfm2 : env.formatAndMount2 <;> simp_all
    · simp only [if_neg hc] at h
      simp_all
  | none =>
    simp only [hfm] at h
    rcases stagePost_mem _ _ _ _ _ _ _ _ _ _ h with h2 | h2 | h2 | h2 | h2
    · simp_all
    · simp_all
    · simp_all
    · exact h2.1 rfl
    · exact h2.1 rfl

/-- The locked stage body writes no sysfs tunable when the requested fsType is
not btrfs. -/
theorem nodeStageLocked_no_sysfs (cfg : NodeCfg) (req : StageReq)
    (cap : VolumeCapability) (env : StageEnv) (f : String) (fl : List String)
    (a b : String) (hat : cap.accessType = some (.mount f fl))
    (hne : f ≠ fsTypeBtrfs)
    (h : Effect.sysfsWriteE a b ∈ (nodeStageLocked cfg req cap env).2) :
    False := by
  unfold nodeStageLocked at h
  repeat' split at h
  all_goals try simp_all
  all_goals exact stageMountAndFinish_no_sysfs h

/-- C5: for every NodeStageVolume request, the option list handed to the
format-and-mount primitive never contains a token matching the read-ahead
pattern or the btrfs reclaim-threshold patterns — the tunables are extracted
from the raw mount flags before mounting — and the btrfs reclaim thresholds
are acted on only when the requested fsType is btrfs (for any other fsType no
sysfs tunable write occurs). -/
theorem c5_mount_options_filtered (cfg : NodeCfg) (st : NodeState)
    (req : StageReq) (env : StageEnv) :
    (∀ a b c o, Effect.formatAndMountE a b c o ∈
        (nodeStageVolume cfg st req env).2.2 →
      ∀ x ∈ o, readAheadValue? x = none ∧ btrfsDataValue? x = none ∧
        btrfsMetaValue? x = none) ∧
    (∀ cap f fl, req.volumeCapability = some cap →
      cap.accessType = some (.mount f fl) → f ≠ fsTypeBtrfs →
      ∀ a b, Effect.sysfsWriteE a b ∉ (nodeStageVolume cfg st req env).2.2) := by
  constructor
  · intro a b c o h
    unfold nodeStageVolume at h
    split at h
    · simp at h
    · split at h
      · simp at h
      · split at h
        · simp at h
        · rename_i cap2 hcap2
          split at h
          · simp at h
          · split at h
            rename_i heq
            dsimp only at h
            exact nodeStageLocked_fmt cfg req cap2 env a b c o
              (by rw [heq]; exact h)
  · intro cap f fl hcap hat hne a b h
    unfold nodeStageVolume at h
    split at h
    · simp at h
    · split at h
      · simp at h
      · split at h
        · simp at h
        · rename_i cap2 hcap2
          split at h
          · simp at h
          · split at h
            rename_i heq
            dsimp only at h
            have hcap3 : cap2 = cap := by
              rw [hcap] at hcap2
              exact (Option.some_inj.mp hcap2).symm
            exact nodeStageLocked_no_sysfs cfg req cap2 env f fl a b
              (hcap3 ▸ hat) hne (by rw [heq]; exact h)

/-- With no read-ahead update requested, part 3 and parts 4-6 append no
read-ahead effect. -/
theorem stageMountAndFinish_no_readAhead {req : StageReq} {env : StageEnv}
    {dp : String} {ro : Bool} {ft : String} {base : List String} {ra : Int}
    {bd bm : String} {sp : String} {a : String} {r : Int}
    (h : Effect.readAheadE a r ∈
      (stageMountAndFinish req env dp ro ft base ra false bd bm
        [Effect.prepareStagePathE sp]).2) : False := by
  unfold stageMountAndFinish stageMountAttempt at h
  cases hfm : env.formatAndMount1 with
  | some v =>
    simp only [hfm] at h
    by_cases hc : (ro = true ∧ (ft = defaultLinuxFsType ∨ ft = fsTypeExt3))
    · simp only [if_pos hc] at h
      cases hfm2 : env.formatAndMount2 <;> simp_all
    · simp only [if_neg hc] at h
      simp_all
  | none =>
    simp only [hfm] at h
    rcases stagePost_mem _ _ _ _ _ _ _ _ _ _ h with h2 | h2 | h2 | h2 | h2
    · simp_all
    · simp_all
    · exact absurd h2.1 (by simp)
    · exact absurd h2.2 (by simp)
    · exact absurd h2.2 (by simp)

/-- The first flag matching the read-ahead pattern with an unparseable or
negative value makes the extraction fail. -/
theorem extractReadAheadKB_first_bad (pre : List String) (flag : String)
    (post : List String) (v : String)
    (hpre : ∀ g ∈ pre, readAheadValue? g = none)
    (hflag : readAheadValue? flag = some v)
    (hbad : goParseInt64 v = none ∨ ∃ n, goParseInt64 v = some n ∧ n < 0) :
    ∃ msg, extractReadAheadKBMountFlag (pre ++ flag :: post) =
      .error msg := by
  induction pre with
  | nil =>
    rcases hbad with hb | ⟨n, hn, hneg⟩
    · exact ⟨"invalid read_ahead_kb mount flag",
        by simp [extractReadAheadKBMountFlag, hflag, hb]⟩
    · exact ⟨"invalid negative value for read_ahead_kb mount flag",
        by simp [extractReadAheadKBMountFlag, hflag, hn, hneg,
          not_le.mpr hneg]⟩
  | cons g gs ih =>
    have hg : readAheadValue? g = none := hpre g (by simp)
    obtain ⟨msg, hmsg⟩ := ih (fun x hx => hpre x (by simp [hx]))
    exact ⟨msg, by simpa [extractReadAheadKBMountFlag, hg] using hmsg⟩

/-- With no flag matching the read-ahead pattern, the extraction reports no
value, no update and no error. -/
theorem extractReadAheadKB_no_match (fl : List String)
    (h : ∀ g ∈ fl, readAheadValue? g = none) :
    extractReadAheadKBMountFlag fl = .ok (-1, false) := by
  induction fl with
  | nil => rfl
  | cons g gs ih =>
    have hg : readAheadValue? g = none := h g (by simp)
    simpa [extractReadAheadKBMountFlag, hg] using
      ih (fun x hx => h x (by simp [hx]))

/-- A NodeStageVolume call whose flags produce no read-ahead request performs
no read-ahead update. -/
theorem nodeStageVolume_no_readAhead (cfg : NodeCfg) (st : NodeState)
    (req : StageReq) (env : StageEnv) (cap : VolumeCapability) (f : String)
    (fl : List String) (a : String) (r : Int)
    (hcap : req.volumeCapability = some cap)
    (hat : cap.accessType = some (.mount f fl))
    (hext : extractReadAheadKBMountFlag fl = .ok (-1, false))
    (h : Effect.readAheadE a r ∈ (nodeStageVolume cfg st req env).2.2) :
    False := by
  unfold nodeStageVolume at h
  split at h
  · simp at h
  · split at h
    · simp at h
    · split at h
      · simp at h
      · rename_i cap2 hcap2
        split at h
        · simp at h
        · split at h
          rename_i heq
          dsimp only at h
          have hcap3 : cap2 = cap := by
            rw [hcap] at hcap2
            exact (Option.some_inj.mp hcap2).symm
          subst hcap3
          have h2 : Effect.readAheadE a r ∈ (nodeStageLocked cfg req cap2 env).2 := by
            rw [heq]
            exact h
          clear h heq
          unfold nodeStageLocked at h2
          repeat' split at h2
          all_goals try simp_all
          all_goals exact stageMountAndFinish_no_readAhead h2

/-- Witness for C5: at a concrete stage call whose flags carry a read-ahead
token, the option list reaching the mount primitive contains only the clean
token, which matches none of the tunable patterns. -/
theorem c5_mount_options_filtered_witness :
    readAheadValue? "discard" = none ∧ btrfsDataValue? "discard" = none ∧
    btrfsMetaValue? "discard" = none :=
  (c5_mount_options_filtered exCfg emptySt exFlagStageReq benignStageEnv).1
    "/dev/sdb" "/staging" "ext4" ["discard"] (by decide) "discard" (by decide)

/-- C9 (amended): in NodeStageVolume with a mount capability, the first flag
matching the read-ahead pattern decides the outcome — an unparseable or
negative value fails the call with InvalidArgument before any format or mount
is attempted — and a flag list with no matching token yields no error and no
read-ahead update. -/
theorem c9_read_ahead_flag_validation (cfg : NodeCfg) (st : NodeState)
    (req : StageReq) (env : StageEnv) (cap : VolumeCapability)
    (fsTypeReq : String) (mountFlags : List String) (k dp : String)
    (hvid : req.volumeID.length ≠ 0)
    (hsp : req.stagingTargetPath.length ≠ 0)
    (hcap : req.volumeCapability = some cap)
    (hlock : st.locks.contains req.volumeID = false)
    (hat : cap.accessType = some (.mount fsTypeReq mountFlags))
    (ham : cap.hasAccessMode = true)
    (hkey : env.volumeIDToKey = .ok k)
    (hdev : env.getDevicePath = .ok dp)
    (hdc : cfg.enableDataCache = false)
    (hmnt : env.isVolumePathMounted = false)
    (hprep : env.prepareStagePath = none) :
    ((∃ pre flag post v, mountFlags = pre ++ flag :: post ∧
        (∀ g ∈ pre, readAheadValue? g = none) ∧
        readAheadValue? flag = some v ∧
        (goParseInt64 v = none ∨ ∃ n, goParseInt64 v = some n ∧ n < 0)) →
      (nodeStageVolume cfg st req env).1 = .error .invalidArgument ∧
      (∀ a b c o, Effect.formatAndMountE a b c o ∉
        (nodeStageVolume cfg st req env).2.2) ∧
      (∀ s t f o, Effect.mountE s t f o ∉
        (nodeStageVolume cfg st req env).2.2)) ∧
    ((∀ g ∈ mountFlags, readAheadValue? g = none) →
      extractReadAheadKBMountFlag mountFlags = .ok (-1, false) ∧
      (∀ a r, Effect.readAheadE a r ∉ (nodeStageVolume cfg st req env).2.2)) := by
  have hlock2 : ¬ req.volumeID ∈ st.locks := by simpa using hlock
  have hval : validateVolumeCapability cap = true := by
    simp [validateVolumeCapability, ham, hat]
  constructor
  · rintro ⟨pre, flag, post, v, hdecomp, hpre, hflag, hbad⟩
    subst hdecomp
    obtain ⟨msg, hext⟩ :=
      extractReadAheadKB_first_bad pre flag post v hpre hflag hbad
    refine ⟨?_, ?_, ?_⟩ <;>
      simp [nodeStageVolume, nodeStageLocked, stageCacheStep, hvid, hsp, hcap,
        hlock2, hval, hat, hkey, hdev, hdc, hmnt, hprep, hext]
  · intro hclean
    have hext := extractReadAheadKB_no_match mountFlags hclean
    refine ⟨hext, ?_⟩
    intro a r hmem
    exact nodeStageVolume_no_readAhead cfg st req env cap fsTypeReq mountFlags
      a r hcap hat hext hmem

/-- Witness for C9: a lone unparseable read-ahead flag fails the call with
InvalidArgument. -/
theorem c9_read_ahead_flag_validation_witness :
    (nodeStageVolume exCfg emptySt c9BadFlagReq benignStageEnv).1 =
      .error .invalidArgument :=
  ((c9_read_ahead_flag_validation exCfg emptySt c9BadFlagReq benignStageEnv
      { accessType := some (.mount "ext4" ["read_ahead_kb=x"]),
        hasAccessMode := true, readOnly := false }
      "ext4" ["read_ahead_kb=x"] "disk-1" "/dev/sdb"
      (by decide) (by decide) rfl rfl rfl rfl rfl rfl rfl rfl rfl).1
    ⟨[], "read_ahead_kb=x", [], "x", rfl, by simp, by decide,
      Or.inl (by decide)⟩).1

/-- Counterexample for C9 as stated: the flag list contains a token matching
the read-ahead pattern whose value is not parseable, yet the call succeeds and
the device is format-and-mounted — the unparseable token after the first match
is never examined. -/
theorem c9_counterexample :
    "read_ahead_kb=x" ∈ c9Flags ∧
    readAheadValue? "read_ahead_kb=x" = some "x" ∧
    goParseInt64 "x" = none ∧
    (nodeStageVolume exCfg emptySt c9StageReq benignStageEnv).1 = .ok () ∧
    Effect.formatAndMountE "/dev/sdb" "/staging" "ext4" [] ∈
      (nodeStageVolume exCfg emptySt c9StageReq benignStageEnv).2.2 := by
  exact ⟨by decide, by decide, by decide, rfl, by decide⟩

/-- C1: for every lifecycle operation and volumeID, a call that finds the
per-volume lock already held (after the pre-lock argument validation) returns
Aborted with the shared state unchanged and no device, mount or tracker side
effect; and every call, on every exit path, leaves the lock set as it found
it — the lock acquired by a successful try-acquire is always released. -/
theorem c1_volume_lock_discipline (cfg : NodeCfg) :
    (∀ st req env cap, req.volumeID.length ≠ 0 →
      req.stagingTargetPath.length ≠ 0 → req.volumeCapability = some cap →
      st.locks.contains req.volumeID = true →
      nodeStageVolume cfg st req env = (.error .aborted, st, [])) ∧
    (∀ st req env cap, req.volumeID.length ≠ 0 →
      req.stagingTargetPath.length ≠ 0 → req.targetPath.length ≠ 0 →
      req.volumeCapability = some cap →
      st.locks.contains req.volumeID = true →
      nodePublishVolume st req env = (.error .aborted, st, [])) ∧
    (∀ st req c, req.volumeID.length ≠ 0 → req.targetPath.length ≠ 0 →
      st.locks.contains req.volumeID = true →
      nodeUnpublishVolume st req c = (.error .aborted, st, [])) ∧
    (∀ st req env, req.volumeID.length ≠ 0 →
      req.stagingTargetPath.length ≠ 0 →
      st.locks.contains req.volumeID = true →
      nodeUnstageVolume cfg st req env = (.error .aborted, st, [])) ∧
    (∀ st req env, (nodeStageVolume cfg st req env).2.1.locks = st.locks) ∧
    (∀ st req env, (nodePublishVolume st req env).2.1.locks = st.locks) ∧
    (∀ st req c, (nodeUnpublishVolume st req c).2.1.locks = st.locks) ∧
    (∀ st req env, (nodeUnstageVolume cfg st req env).2.1.locks = st.locks) := by
  refine ⟨?_, ?_, ?_, ?_, ?_, ?_, ?_, ?_⟩
  · intro st req env cap h1 h2 h3 h4
    have h5 : req.volumeID ∈ st.locks := by simpa using h4
    simp [nodeStageVolume, h1, h2, h3, h5]
  · intro st req env cap h1 h2 h3 h4 h5
    have h6 : req.volumeID ∈ st.locks := by simpa using h5
    simp [nodePublishVolume, h1, h2, h3, h4, h6]
  · intro st req c h1 h2 h3
    have h4 : req.volumeID ∈ st.locks := by simpa using h3
    simp [nodeUnpublishVolume, h1, h2, h4]
  · intro st req env h1 h2 h3
    have h4 : req.volumeID ∈ st.locks := by simpa using h3
    simp [nodeUnstageVolume, h1, h2, h4]
  · intro st req env
    unfold nodeStageVolume
    repeat' split
    all_goals simp [List.erase_cons_head]
  · intro st req env
    unfold nodePublishVolume
    repeat' split
    all_goals simp [List.erase_cons_head]
  · intro st req c
    unfold nodeUnpublishVolume
    repeat' split
    all_goals simp [List.erase_cons_head]
  · intro st req env
    unfold nodeUnstageVolume
    repeat' split
    all_goals simp [List.erase_cons_head]

/-- Witness for C1: a second Stage call for a volume whose lock is held
returns Aborted, leaves the state unchanged and performs no effect. -/
theorem c1_volume_lock_discipline_witness :
    nodeStageVolume exCfg
      { locks := ["vol-1"], deviceInUseErrors := [] } exRoStageReq exRetryEnv =
      (.error .aborted, { locks := ["vol-1"], deviceInUseErrors := [] }, []) :=
  (c1_volume_lock_discipline exCfg).1
    { locks := ["vol-1"], deviceInUseErrors := [] } exRoStageReq exRetryEnv
    exRoCap (by decide) (by decide) rfl (by decide)

/-- Two strings that are not prefixes of one another are never both literal
beginnings of the same machine type. -/
theorem pfx_exclusive_pair (p q mt : String)
    (hpq : ¬ (p.data <+: q.data) ∧ ¬ (q.data <+: p.data))
    (h1 : goHasPrefix mt p = true) : goHasPrefix mt q = false := by
  by_contra h2
  rw [Bool.not_eq_false] at h2
  unfold goHasPrefix at h1 h2
  have p1 := List.isPrefixOf_iff_prefix.mp h1
  have p2 := List.isPrefixOf_iff_prefix.mp h2
  rcases List.prefix_or_prefix_of_prefix p1 p2 with h3 | h3
  · exact hpq.1 h3
  · exact hpq.2 h3

/-- The gen4 loop returns the body of the unique matching family name. -/
theorem gen4Limit_eq_of_pfx (mt : String) (tbl : String → Int → Int)
    (p : String) (hmem : p ∈ gen4MachineTypesPfx)
    (hpre : goHasPrefix mt p = true) :
    gen4Limit mt tbl gen4MachineTypesPfx = some (gen4Body mt tbl p) := by
  fin_cases hmem
  · simp [gen4MachineTypesPfx, gen4Limit, hpre]
  · have e1 : goHasPrefix mt "c4a-" = false :=
      pfx_exclusive_pair "c4-" "c4a-" mt (by decide) hpre
    simp [gen4MachineTypesPfx, gen4Limit, hpre, e1]
  · have e1 : goHasPrefix mt "c4a-" = false :=
      pfx_exclusive_pair "n4-" "c4a-" mt (by decide) hpre
    have e2 : goHasPrefix mt "c4-" = false :=
      pfx_exclusive_pair "n4-" "c4-" mt (by decide) hpre
    simp [gen4MachineTypesPfx, gen4Limit, hpre, e1, e2]
  · have e1 : goHasPrefix mt "c4a-" = false :=
      pfx_exclusive_pair "c4d-" "c4a-" mt (by decide) hpre
    have e2 : goHasPrefix mt "c4-" = false :=
      pfx_exclusive_pair "c4d-" "c4-" mt (by decide) hpre
    have e3 : goHasPrefix mt "n4-" = false :=
      pfx_exclusive_pair "c4d-" "n4-" mt (by decide) hpre
    simp [gen4MachineTypesPfx, gen4Limit, hpre, e1, e2, e3]

/-- The gen4 loop falls through when no family name matches. -/
theorem gen4Limit_none (mt : String) (tbl : String → Int → Int)
    (h : ∀ p ∈ gen4MachineTypesPfx, goHasPrefix mt p = false) :
    gen4Limit mt tbl gen4MachineTypesPfx = none := by
  have h1 := h "c4a-" (by simp [gen4MachineTypesPfx])
  have h2 := h "c4-" (by simp [gen4MachineTypesPfx])
  have h3 := h "n4-" (by simp [gen4MachineTypesPfx])
  have h4 := h "c4d-" (by simp [gen4MachineTypesPfx])
  simp [gen4MachineTypesPfx, gen4Limit, h1, h2, h3, h4]

/-- C7: GetVolumeLimits resolves the attach limit with this priority: an
exact shared-core machine type returns the small constant regardless of the
override; otherwise an override strictly between 0 and 128 wins outright;
otherwise a recognized gen4 family beginning uses the CPU count parsed from
the third dash-separated segment to index the family-specific hyperdisk
table, a missing third segment or an unparseable CPU segment returning the
large constant together with a descriptive error; otherwise x4- returns 39
and a4- returns 127; otherwise the large constant is returned. -/
theorem c7_attach_limit_priority :
    (∀ mt ov tbl, mt ∈ smallMachineTypes →
      GetVolumeLimits mt ov tbl = (volumeLimitSmall, none)) ∧
    (∀ mt x tbl, mt ∉ smallMachineTypes → 0 < x → x < 128 →
      GetVolumeLimits mt (.ok x) tbl = (x, none)) ∧
    (∀ mt ov tbl p cpus, mt ∉ smallMachineTypes → overrideSane ov = false →
      p ∈ gen4MachineTypesPfx → goHasPrefix mt p = true →
      2 < (goSplitDash mt).length →
      goParseInt64 ((goSplitDash mt).getD 2 "") = some cpus →
      GetVolumeLimits mt ov tbl = (tbl (goTrimSuffixDash p) cpus, none)) ∧
    (∀ mt ov tbl p, mt ∉ smallMachineTypes → overrideSane ov = false →
      p ∈ gen4MachineTypesPfx → goHasPrefix mt p = true →
      2 < (goSplitDash mt).length →
      goParseInt64 ((goSplitDash mt).getD 2 "") = none →
      (GetVolumeLimits mt ov tbl).1 = volumeLimitBig ∧
      (GetVolumeLimits mt ov tbl).2.isSome = true) ∧
    (∀ mt ov tbl p, mt ∉ smallMachineTypes → overrideSane ov = false →
      p ∈ gen4MachineTypesPfx → goHasPrefix mt p = true →
      ¬ 2 < (goSplitDash mt).length →
      (GetVolumeLimits mt ov tbl).1 = volumeLimitBig ∧
      (GetVolumeLimits mt ov tbl).2.isSome = true) ∧
    (∀ mt ov tbl, mt ∉ smallMachineTypes → overrideSane ov = false →
      (∀ p ∈ gen4MachineTypesPfx, goHasPrefix mt p = false) →
      goHasPrefix mt "x4-" = true →
      GetVolumeLimits mt ov tbl = (x4HyperdiskLimit, none)) ∧
    (∀ mt ov tbl, mt ∉ smallMachineTypes → overrideSane ov = false →
      (∀ p ∈ gen4MachineTypesPfx, goHasPrefix mt p = false) →
      goHasPrefix mt "a4-" = true →
      GetVolumeLimits mt ov tbl = (a4HyperdiskLimit, none)) ∧
    (∀ mt ov tbl, mt ∉ smallMachineTypes → overrideSane ov = false →
      (∀ p ∈ gen4MachineTypesPfx, goHasPrefix mt p = false) →
      goHasPrefix mt "x4-" = false → goHasPrefix mt "a4-" = false →
      GetVolumeLimits mt ov tbl = (volumeLimitBig, none)) := by
  refine ⟨?_, ?_, ?_, ?_, ?_, ?_, ?_, ?_⟩
  · intro mt ov tbl hmem
    simp [GetVolumeLimits, hmem]
  · intro mt x tbl hmem hx1 hx2
    simp [GetVolumeLimits, hmem, overrideSane, hx1, hx2]
  · intro mt ov tbl p cpus hmem hov hp hpre hlen hcpu
    rw [List.getD_eq_getElem _ _ hlen] at hcpu
    simp [GetVolumeLimits, hmem, hov, gen4Limit_eq_of_pfx mt tbl p hp hpre,
      gen4Body, hlen, hcpu]
  · intro mt ov tbl p hmem hov hp hpre hlen hcpu
    rw [List.getD_eq_getElem _ _ hlen] at hcpu
    simp [GetVolumeLimits, hmem, hov, gen4Limit_eq_of_pfx mt tbl p hp hpre,
      gen4Body, hlen, hcpu]
  · intro mt ov tbl p hmem hov hp hpre hlen
    simp [GetVolumeLimits, hmem, hov, gen4Limit_eq_of_pfx mt tbl p hp hpre,
      gen4Body, hlen]
  · intro mt ov tbl hmem hov hgen hx4
    simp [GetVolumeLimits, hmem, hov, gen4Limit_none mt tbl hgen, hx4]
  · intro mt ov tbl hmem hov hgen ha4
    have hx4 : goHasPrefix mt "x4-" = false :=
      pfx_exclusive_pair "a4-" "x4-" mt (by decide) ha4
    simp [GetVolumeLimits, hmem, hov, gen4Limit_none mt tbl hgen, hx4, ha4]
  · intro mt ov tbl hmem hov hgen hx4 ha4
    simp [GetVolumeLimits, hmem, hov, gen4Limit_none mt tbl hgen, hx4, ha4]

/-- Witness for C7: concrete resolutions — a shared-core type, a gen4 type
with a parsed CPU count indexing the table, and a malformed gen4 type
returning the large constant with an error. -/
theorem c7_attach_limit_priority_witness :
    GetVolumeLimits "e2-medium" (.ok 64) (fun _ _ => 31) =
      (volumeLimitSmall, none) ∧
    GetVolumeLimits "c4-standard-8" (.error ()) (fun f c =>
      if f = "c4" ∧ c = 8 then 51 else 0) = (51, none) ∧
    (GetVolumeLimits "c4-standard-x" (.error ()) (fun _ _ => 0)).1 =
      volumeLimitBig ∧
    (GetVolumeLimits "c4-standard-x" (.error ()) (fun _ _ => 0)).2.isSome =
      true := by
  refine ⟨?_, ?_, ?_, ?_⟩
  · exact c7_attach_limit_priority.1 "e2-medium" (.ok 64) _ (by decide)
  · have h := c7_attach_limit_priority.2.2.1 "c4-standard-8" (.error ())
      (fun f c => if f = "c4" ∧ c = 8 then 51 else 0) "c4-" 8
      (by decide) rfl (by decide) (by decide) (by decide) (by decide)
    simpa using h
  · exact (c7_attach_limit_priority.2.2.2.1 "c4-standard-x" (.error ()) _
      "c4-" (by decide) rfl (by decide) (by decide) (by decide) (by decide)).1
  · exact (c7_attach_limit_priority.2.2.2.1 "c4-standard-x" (.error ()) _
      "c4-" (by decide) rfl (by decide) (by decide) (by decide) (by decide)).2

